import Mathlib

/-!
# Broadcom BCM2835 framebuffer driver: mode validation, negotiation, palette

A shallow embedding of `drivers/video/bcm2835fb.c`.  The C functions mutate a
`struct fb_var_screeninfo` through a pointer and return an `int` status; here
each function takes the record and returns the status together with the
record as the C code leaves it, also on the failing paths.  The functions
that talk to the coprocessor and map memory run in a state `host` that also
holds the live mappings and the calls made to kernel services; the answers
of those services are an argument.

Machine integers: the `__u32` fields are natural numbers, and every place
where the C arithmetic can wrap is written with an explicit reduction
(`u32`, `i32`).  The kernel is built with wrapping signed arithmetic
(`-fno-strict-overflow`), so `int` arithmetic is reduced to the two's
complement range.
-/

namespace Bcm2835fb

/-! ## Machine integers -/

/-- Conversion of a C integer value to `__u32` (reduction modulo `2^32`). -/
def u32 (i : Int) : Nat := (i % 4294967296).toNat

/-- Conversion of a C integer value to a 32-bit `int` (two's complement). -/
def i32 (i : Int) : Int := (i + 2147483648) % 4294967296 - 2147483648

/-! ## Kernel declarations the driver uses -/

/-- Constants of the kernel headers that the driver names but that are declared
outside `drivers/video/bcm2835fb.c` (`<linux/errno.h>`, `<linux/fb.h>`).
Their values are parameters of the model; an errno value is positive. -/
structure KernelHeaders where
  EINVAL : Nat
  FB_VMODE_INTERLACED : Nat
  FB_VMODE_DOUBLE : Nat
  EINVAL_pos : 0 < EINVAL

/-- The values these constants have in the Linux headers. -/
def linux : KernelHeaders where
  EINVAL := 22
  FB_VMODE_INTERLACED := 1
  FB_VMODE_DOUBLE := 2
  EINVAL_pos := by decide

/-- Modelled from the spec: `struct fb_bitfield` is declared in `<linux/fb.h>`,
which is not part of the driver source.  A channel descriptor is
{bit-offset, bit-length}; the driver also writes its `msb_right` member. -/
structure fb_bitfield where
  offset : Nat
  length : Nat
  msb_right : Nat
deriving DecidableEq, Repr

/-- Modelled from the spec: `struct fb_var_screeninfo` is declared in
`<linux/fb.h>`, which is not part of the driver source.  The record holds the
members the driver reads or writes: visible resolution, virtual resolution,
pan offset, pixel depth, the four channel descriptors and the scan variant
flags (`vmode`), and the members initialised by the probe routine. -/
structure fb_var_screeninfo where
  xres : Nat
  yres : Nat
  xres_virtual : Nat
  yres_virtual : Nat
  xoffset : Nat
  yoffset : Nat
  bits_per_pixel : Nat
  red : fb_bitfield
  green : fb_bitfield
  blue : fb_bitfield
  transp : fb_bitfield
  nonstd : Nat
  activate : Nat
  height : Nat
  width : Nat
  accel_flags : Nat
  vmode : Nat
deriving DecidableEq, Repr

/-- The messages the driver writes to the kernel log with `dev_err`, with the
values of their format arguments. -/
inductive dev_err where
  /-- The message "invalid bits_per_pixel %d". -/
  | invalid_bits_per_pixel (bits_per_pixel : Nat)
  /-- The message "resolution set to maximum of %dx%d". -/
  | resolution_set_to_maximum (xres_virtual yres_virtual : Nat)
  /-- The message "VerticalTotal >= 1200". -/
  | vertical_total
  /-- The message "Query for video memory failed". -/
  | query_failed
  /-- The message "Could not ioremap video memory". -/
  | could_not_ioremap
deriving DecidableEq, Repr

/-! ## `bcm2835_fb_set_bitfields` -/

/-- The `switch (var->bits_per_pixel)` of `bcm2835_fb_set_bitfields`: the
channel lengths for the depth, or `none` on the `default:` branch. -/
def set_bitfields_switch (var : fb_var_screeninfo) : Option fb_var_screeninfo :=
  if var.bits_per_pixel = 1 ∨ var.bits_per_pixel = 2 ∨ var.bits_per_pixel = 4
      ∨ var.bits_per_pixel = 8 then
    let var := { var with red := { var.red with length := var.bits_per_pixel } }
    let var := { var with red := { var.red with offset := 0 } }
    let var := { var with green := { var.green with length := var.bits_per_pixel } }
    let var := { var with green := { var.green with offset := 0 } }
    let var := { var with blue := { var.blue with length := var.bits_per_pixel } }
    let var := { var with blue := { var.blue with offset := 0 } }
    some var
  else if var.bits_per_pixel = 16 then
    let var := { var with red := { var.red with length := 5 } }
    let var := { var with blue := { var.blue with length := 5 } }
    let var :=
      if var.green.length ≠ 5 ∧ var.green.length ≠ 6 then
        { var with green := { var.green with length := 6 } }
      else var
    some var
  else if var.bits_per_pixel = 24 then
    let var := { var with red := { var.red with length := 8 } }
    let var := { var with blue := { var.blue with length := 8 } }
    let var := { var with green := { var.green with length := 8 } }
    some var
  else if var.bits_per_pixel = 32 then
    let var := { var with red := { var.red with length := 8 } }
    let var := { var with green := { var.green with length := 8 } }
    let var := { var with blue := { var.blue with length := 8 } }
    let var := { var with transp := { var.transp with length := 8 } }
    some var
  else
    none

/-- The function `bcm2835_fb_set_bitfields`: the returned status and the
record as the function leaves it.  The `memset` of `transp` and the three
`msb_right` stores come before the `switch`, so they are also in effect when
the function returns `-EINVAL`.  The offsets are sums of lengths of at most 8
bits, which cannot wrap. -/
def bcm2835_fb_set_bitfields (K : KernelHeaders) (var : fb_var_screeninfo) :
    Int × fb_var_screeninfo :=
  let var := { var with transp := { offset := 0, length := 0, msb_right := 0 } }
  let var := { var with red := { var.red with msb_right := 0 } }
  let var := { var with green := { var.green with msb_right := 0 } }
  let var := { var with blue := { var.blue with msb_right := 0 } }
  match set_bitfields_switch var with
  | none => (-(K.EINVAL : Int), var)
  | some var =>
    let var :=
      if var.bits_per_pixel ≥ 24 then
        let var := { var with red := { var.red with offset := 0 } }
        let var := { var with green :=
          { var.green with offset := var.red.offset + var.red.length } }
        let var := { var with blue :=
          { var.blue with offset := var.green.offset + var.green.length } }
        { var with transp :=
          { var.transp with offset := var.blue.offset + var.blue.length } }
      else if var.bits_per_pixel ≥ 16 then
        let var := { var with blue := { var.blue with offset := 0 } }
        let var := { var with green :=
          { var.green with offset := var.blue.offset + var.blue.length } }
        let var := { var with red :=
          { var.red with offset := var.green.offset + var.green.length } }
        { var with transp :=
          { var.transp with offset := var.red.offset + var.red.length } }
      else var
    (0, var)

/-! ## `bcm2835_fb_check_var` -/

/-- What `bcm2835_fb_check_var` leaves behind: the returned status, the record
behind `var`, and the messages logged, oldest first. -/
structure check_var_result where
  ret : Int
  var : fb_var_screeninfo
  log : List dev_err
deriving DecidableEq, Repr

/-- The scan-adjusted vertical total of `bcm2835_fb_check_var`, the local
`int yres` after the `vmode` tests.  The visible height is converted from
`__u32` to `int`, and `/` is C division, which truncates towards zero. -/
def check_var_yres (K : KernelHeaders) (var : fb_var_screeninfo) : Int :=
  let yres : Int := i32 var.yres
  if var.vmode &&& K.FB_VMODE_DOUBLE ≠ 0 then
    i32 (yres * 2)
  else if var.vmode &&& K.FB_VMODE_INTERLACED ≠ 0 then
    Int.tdiv (i32 (yres + 1)) 2
  else
    yres

/-- The virtual-resolution block of `bcm2835_fb_check_var` (the three `if`
statements on `xres_virtual` and `yres_virtual`), with the message it logs.
`var->yres_virtual == -1` compares a `__u32` with the converted constant. -/
def check_var_virtual (var : fb_var_screeninfo) : fb_var_screeninfo × List dev_err :=
  let var := if var.xres_virtual < var.xres then
    { var with xres_virtual := var.xres } else var
  let (var, log) :=
    if var.yres_virtual = u32 (-1) then
      let var := { var with yres_virtual := 480 }
      (var, [dev_err.resolution_set_to_maximum var.xres_virtual var.yres_virtual])
    else (var, [])
  let var := if var.yres_virtual < var.yres then
    { var with yres_virtual := var.yres } else var
  (var, log)

/-- The pan-offset block of `bcm2835_fb_check_var` (the four `if` statements
on `xoffset` and `yoffset`).  The operands are `__u32`: `< 0` is an unsigned
comparison, and the subtractions wrap modulo `2^32`. -/
def check_var_offset (var : fb_var_screeninfo) : fb_var_screeninfo :=
  let var := if var.xoffset < u32 0 then { var with xoffset := 0 } else var
  let var := if var.yoffset < u32 0 then { var with yoffset := 0 } else var
  let var :=
    if var.xoffset > u32 ((var.xres_virtual : Int) - var.xres) then
      { var with xoffset := u32 ((var.xres_virtual : Int) - var.xres - 1) }
    else var
  let var :=
    if var.yoffset > u32 ((var.yres_virtual : Int) - var.yres) then
      { var with yoffset := u32 ((var.yres_virtual : Int) - var.yres - 1) }
    else var
  var

/-- The depth default of `bcm2835_fb_check_var`:
`if (!var->bits_per_pixel) var->bits_per_pixel = 16;`. -/
def check_var_depth (var : fb_var_screeninfo) : fb_var_screeninfo :=
  if var.bits_per_pixel = 0 then { var with bits_per_pixel := 16 } else var

/-- The function `bcm2835_fb_check_var`: the depth default, the layout
derivation, the virtual-resolution block, the pan-offset block and the test
of the scan-adjusted vertical total, in the order of the C code. -/
def bcm2835_fb_check_var (K : KernelHeaders) (var : fb_var_screeninfo) :
    check_var_result :=
  let var := check_var_depth var
  let (r, var) := bcm2835_fb_set_bitfields K var
  if r ≠ 0 then
    { ret := -(K.EINVAL : Int), var := var,
      log := [dev_err.invalid_bits_per_pixel var.bits_per_pixel] }
  else
    let (var, log) := check_var_virtual var
    let var := check_var_offset var
    if check_var_yres K var > 1200 then
      { ret := -(K.EINVAL : Int), var := var, log := log ++ [dev_err.vertical_total] }
    else
      { ret := 0, var := var, log := log }

/-! ## The shared record, the surface and the host -/

/-- The constants of `KernelHeaders` together with those that
`bcm2835_fb_set_par` names: the errno of an I/O error (positive) and the two
`FB_VISUAL_*` values of `<linux/fb.h>`, which are distinct enumeration
values. -/
structure FbHeaders extends KernelHeaders where
  EIO : Nat
  FB_VISUAL_TRUECOLOR : Nat
  FB_VISUAL_PSEUDOCOLOR : Nat
  EIO_pos : 0 < EIO
  visual_ne : FB_VISUAL_PSEUDOCOLOR ≠ FB_VISUAL_TRUECOLOR

/-- The values these constants have in the Linux headers. -/
def linux_fb : FbHeaders where
  toKernelHeaders := linux
  EIO := 5
  FB_VISUAL_TRUECOLOR := 2
  FB_VISUAL_PSEUDOCOLOR := 3
  EIO_pos := by decide
  visual_ne := by decide

/-- The macro `MBOX_CHAN_FB`. -/
def MBOX_CHAN_FB : Nat := 1

/-- The macro `TO_VC_PHYS(a)`. -/
def TO_VC_PHYS (a : Nat) : Nat := 0x40000000 ||| a

/-- The macro `FROM_VC_PHYS(a)`. -/
def FROM_VC_PHYS (a : Nat) : Nat := 0x3fffffff &&& a

/-- The shared request/reply record `struct fbinfo_s`.  The table `cmap[256]`
of 16-bit entries is the function on its indices 0..255. -/
structure fbinfo_s where
  xres : Nat
  yres : Nat
  xres_virtual : Nat
  yres_virtual : Nat
  pitch : Nat
  bpp : Nat
  xoffset : Nat
  yoffset : Nat
  base : Nat
  screen_size : Nat
  cmap : Nat → Nat

/-- Modelled from the spec: `struct fb_fix_screeninfo` is declared in
`<linux/fb.h>`, which is not part of the driver source.  The record holds the
addressing members that `bcm2835_fb_set_par` writes: device-visible base
address, memory length, visual and line length (pitch). -/
structure fb_fix_screeninfo where
  smem_start : Nat
  smem_len : Nat
  visual : Nat
  line_length : Nat
deriving DecidableEq, Repr

/-- Modelled from the spec: `struct fb_info` is declared in `<linux/fb.h>`,
which is not part of the driver source.  The record holds the active mode,
the addressing members, the mapped host pointer `screen_base` (0 is `NULL`)
and the size of the mapped span. -/
structure fb_info where
  var : fb_var_screeninfo
  fix : fb_fix_screeninfo
  screen_base : Nat
  screen_size : Nat
deriving DecidableEq, Repr

/-- The device record `struct bcm2835_fb`.  The shared record behind the
pointer `info` is held by value, and the pseudo-palette `cmap[16]` of 32-bit
entries is the function on its indices 0..15. -/
structure bcm2835_fb where
  fb : fb_info
  info : fbinfo_s
  mbox : Nat
  dma : Nat
  cmap : Nat → Nat

/-- A live host mapping: the host pointer returned by `ioremap_wc`, and the
span [`phys`, `phys + size`) of device memory it maps. -/
structure io_mapping where
  addr : Nat
  phys : Nat
  size : Nat
deriving DecidableEq, Repr

/-- The calls the driver makes to kernel services it does not define, with
their arguments. -/
inductive host_call where
  /-- The call `bcm2835_mbox_io(mbox, chan, data, &val)`. -/
  | mbox_io (mbox chan data : Nat)
  /-- The call `iounmap(addr)`. -/
  | iounmap (addr : Nat)
  /-- The call `ioremap_wc(phys, size)`. -/
  | ioremap_wc (phys size : Nat)
deriving DecidableEq, Repr

/-- The state the driver functions run in: the device record, the live host
mappings, the calls made to kernel services (oldest first) and the messages
logged (oldest first). -/
structure host where
  dev : bcm2835_fb
  mappings : List io_mapping
  calls : List host_call
  log : List dev_err

/-- Modelled from the spec: what the kernel services answer during one run of
`bcm2835_fb_set_par`; `bcm2835_mbox_io`, `ioremap_wc` and `iounmap` are not
part of the driver source.  The transport is a blocking call that returns an
error code (`mbox_ret`, 0 on success) and a reply status word (`mbox_val`),
and during it the coprocessor fills the output fields of the shared record:
pitch, base address and total size.  `ioremap_wc` establishes a mapping over
exactly the span it is given and returns its host pointer, or `NULL` (0) when
mapping fails; `iounmap` releases the mapping at the pointer it is given. -/
structure set_par_env where
  mbox_ret : Int
  mbox_val : Nat
  pitch : Nat
  base : Nat
  screen_size : Nat
  ioremap_wc : Nat

/-! ## `bcm2835_fb_set_par` -/

/-- The first half of `bcm2835_fb_set_par`: the stores into the shared record
and the exchange with the coprocessor, after which the record holds the
reply. -/
def set_par_request (env : set_par_env) (s : host) : host :=
  let fbinfo := s.dev.info
  let fbinfo := { fbinfo with xres := s.dev.fb.var.xres }
  let fbinfo := { fbinfo with yres := s.dev.fb.var.yres }
  let fbinfo := { fbinfo with xres_virtual := s.dev.fb.var.xres_virtual }
  let fbinfo := { fbinfo with yres_virtual := s.dev.fb.var.yres_virtual }
  let fbinfo := { fbinfo with bpp := s.dev.fb.var.bits_per_pixel }
  let fbinfo := { fbinfo with xoffset := s.dev.fb.var.xoffset }
  let fbinfo := { fbinfo with yoffset := s.dev.fb.var.yoffset }
  let fbinfo := { fbinfo with base := 0 }
  let fbinfo := { fbinfo with pitch := 0 }
  let fbinfo := { fbinfo with
    pitch := env.pitch, base := env.base, screen_size := env.screen_size }
  { s with
    dev := { s.dev with info := fbinfo }
    calls := s.calls ++ [host_call.mbox_io s.dev.mbox MBOX_CHAN_FB (TO_VC_PHYS s.dev.dma)] }

/-- The second half of `bcm2835_fb_set_par`, run after a reply with status 0:
the stores into the addressing state, the release of an existing mapping and
the new mapping.  `fix.smem_len` is a `__u32` product. -/
def set_par_apply (K : FbHeaders) (env : set_par_env) (s : host) : Int × host :=
  let fbinfo := s.dev.info
  let fb := s.dev.fb
  let fb := { fb with fix := { fb.fix with line_length := fbinfo.pitch } }
  let fb :=
    if fb.var.bits_per_pixel ≤ 8 then
      { fb with fix := { fb.fix with visual := K.FB_VISUAL_PSEUDOCOLOR } }
    else
      { fb with fix := { fb.fix with visual := K.FB_VISUAL_TRUECOLOR } }
  let fb := { fb with fix := { fb.fix with smem_start := FROM_VC_PHYS fbinfo.base } }
  let fb := { fb with fix :=
    { fb.fix with smem_len := (fbinfo.pitch * fbinfo.yres_virtual) % 4294967296 } }
  let fb := { fb with screen_size := fbinfo.screen_size }
  let s := { s with dev := { s.dev with fb := fb } }
  let s :=
    if s.dev.fb.screen_base ≠ 0 then
      { s with
        mappings := s.mappings.filter (fun m => m.addr ≠ s.dev.fb.screen_base)
        calls := s.calls ++ [host_call.iounmap s.dev.fb.screen_base] }
    else s
  let s := { s with
    dev := { s.dev with fb := { s.dev.fb with screen_base := env.ioremap_wc } }
    mappings :=
      if env.ioremap_wc ≠ 0 then
        s.mappings ++ [{ addr := env.ioremap_wc, phys := s.dev.fb.fix.smem_start,
                         size := s.dev.fb.screen_size }]
      else s.mappings
    calls := s.calls ++
      [host_call.ioremap_wc s.dev.fb.fix.smem_start s.dev.fb.screen_size] }
  if s.dev.fb.screen_base = 0 then
    (-(K.EIO : Int), { s with log := s.log ++ [dev_err.could_not_ioremap] })
  else
    (0, s)

/-- The function `bcm2835_fb_set_par`: the returned status and the state it
leaves.  The two early returns come before any store into the addressing
state. -/
def bcm2835_fb_set_par (K : FbHeaders) (env : set_par_env) (s : host) : Int × host :=
  let s := set_par_request env s
  if env.mbox_ret ≠ 0 then
    (env.mbox_ret, s)
  else if env.mbox_val ≠ 0 then
    (-(K.EIO : Int), { s with log := s.log ++ [dev_err.query_failed] })
  else
    set_par_apply K env s

/-! ## `convert_bitfield` and `bcm2835_fb_setcolreg` -/

/-- The function `convert_bitfield`.  `val` is an `int`; `16 - bf->length` is
an unsigned difference, `>>` on the `int` is an arithmetic shift, `&` with the
unsigned mask and the final `<<` are unsigned 32-bit operations.  (C leaves
shifts by 32 or more undefined; the channel lengths of
`bcm2835_fb_set_bitfields` are at most 8.) -/
def convert_bitfield (val : Int) (bf : fb_bitfield) : Nat :=
  let mask : Nat := u32 (i32 ((1 <<< bf.length : Nat) : Int) - 1)
  u32 (((u32 (val >>> u32 (16 - (bf.length : Int))) &&& mask) <<< bf.offset : Nat))

/-- The store into the indexed table of `bcm2835_fb_setcolreg`:
`fb->info->cmap[regno] = ...`, an `unsigned int` expression stored in a
16-bit entry. -/
def setcolreg_cmap (regno red green blue : Nat) (s : host) : host :=
  { s with dev := { s.dev with info := { s.dev.info with
      cmap := fun i =>
        if i = regno then
          ((((red >>> 11) &&& 0x1f) <<< 11) |||
            (((green >>> 10) &&& 0x3f) <<< 5) |||
            (((blue >>> 11) &&& 0x1f) <<< 0)) % 65536
        else s.dev.info.cmap i } } }

/-- The store into the pseudo-palette of `bcm2835_fb_setcolreg`:
`fb->cmap[regno] = ...`; the `unsigned int` arguments are converted to the
`int` parameter of `convert_bitfield`. -/
def setcolreg_pseudo (regno red green blue transp : Nat) (s : host) : host :=
  { s with dev := { s.dev with
      cmap := fun i =>
        if i = regno then
          convert_bitfield (i32 transp) s.dev.fb.var.transp |||
            convert_bitfield (i32 blue) s.dev.fb.var.blue |||
            convert_bitfield (i32 green) s.dev.fb.var.green |||
            convert_bitfield (i32 red) s.dev.fb.var.red
        else s.dev.cmap i } }

/-- The function `bcm2835_fb_setcolreg`: the returned `int` (the value of
`regno > 255`, or 1 when nothing is mapped) and the state it leaves.  The
return value of the nested `bcm2835_fb_set_par` is discarded. -/
def bcm2835_fb_setcolreg (K : FbHeaders) (regno red green blue transp : Nat)
    (env : set_par_env) (s : host) : Int × host :=
  if s.dev.fb.screen_base = 0 then
    (1, s)
  else
    let s :=
      if s.dev.fb.var.bits_per_pixel ≤ 8 then
        let s := if regno < 256 then setcolreg_cmap regno red green blue s else s
        if regno = 15 ∨ regno = 255 then
          (bcm2835_fb_set_par K env s).2
        else s
      else if regno < 16 then
        setcolreg_pseudo regno red green blue transp s
      else s
    (if regno > 255 then 1 else 0, s)

/-! ## Sequences of calls -/

/-- The store of a mode into `info->var`, which every run of
`bcm2835_fb_set_par` and `bcm2835_fb_setcolreg` reads anew; nothing else in
the state changes. -/
def store_var (var : fb_var_screeninfo) (s : host) : host :=
  { s with dev := { s.dev with fb := { s.dev.fb with var := var } } }

/-- A step of the framework on the surface: it stores a (new) mode in
`info->var`, or it calls into the driver a function that can reach
`bcm2835_fb_set_par`, with the answers of the kernel services during the
call. -/
inductive fb_call where
  /-- The framework stores the mode `var` in `info->var`. -/
  | store_var (var : fb_var_screeninfo)
  /-- The call `bcm2835_fb_set_par(info)`. -/
  | set_par (env : set_par_env)
  /-- The call `bcm2835_fb_setcolreg(regno, red, green, blue, transp, info)`. -/
  | setcolreg (regno red green blue transp : Nat) (env : set_par_env)

/-- The state after one step; the returned status is dropped. -/
def run_call (K : FbHeaders) (s : host) (c : fb_call) : host :=
  match c with
  | fb_call.store_var var => store_var var s
  | fb_call.set_par env => (bcm2835_fb_set_par K env s).2
  | fb_call.setcolreg regno red green blue transp env =>
    (bcm2835_fb_setcolreg K regno red green blue transp env s).2

/-- The state after a sequence of steps, first step first. -/
def run_calls (K : FbHeaders) (cs : List fb_call) (s : host) : host :=
  cs.foldl (run_call K) s

/-! ## Vocabulary of the statements -/

/-- The pixel depths with a channel layout: 1, 2, 4, 8, 16, 24 and 32. -/
def supported_depth (d : Nat) : Prop :=
  d = 1 ∨ d = 2 ∨ d = 4 ∨ d = 8 ∨ d = 16 ∨ d = 24 ∨ d = 32

instance (d : Nat) : Decidable (supported_depth d) := by
  unfold supported_depth; infer_instance

/-- A sample mode: 640x480 visible and virtual, no panning, depth 16,
progressive scan, channel descriptors not yet filled in. -/
def mode_640x480 : fb_var_screeninfo where
  xres := 640
  yres := 480
  xres_virtual := 640
  yres_virtual := 480
  xoffset := 0
  yoffset := 0
  bits_per_pixel := 16
  red := ⟨0, 0, 0⟩
  green := ⟨0, 0, 0⟩
  blue := ⟨0, 0, 0⟩
  transp := ⟨0, 0, 0⟩
  nonstd := 0
  activate := 0
  height := 4294967295
  width := 4294967295
  accel_flags := 0
  vmode := 0

/-- A mode of unsupported depth 3 whose alpha descriptor is {24, 8}. -/
def mode_depth_3 : fb_var_screeninfo :=
  { mode_640x480 with bits_per_pixel := 3, transp := ⟨24, 8, 0⟩ }

/-- The 1920x1080 mode at depth 32 whose virtual height is the "unspecified"
value, all ones. -/
def mode_1920x1080 : fb_var_screeninfo :=
  { mode_640x480 with
      xres := 1920, yres := 1080, xres_virtual := 1920, yres_virtual := 4294967295,
      bits_per_pixel := 32 }

/-- The 640x480 mode with a pan offset of one pixel on a surface that is no
wider than the visible area. -/
def mode_pan_1 : fb_var_screeninfo :=
  { mode_640x480 with xoffset := 1 }

/-- The 640x480 mode on a virtual surface 1280 wide, panned to the exact fit
`xoffset = xres_virtual - xres`. -/
def mode_exact_fit : fb_var_screeninfo :=
  { mode_640x480 with xres_virtual := 1280, xoffset := 640 }

/-- The visible 640x480 mode with the doubled-scan flag of `linux` set. -/
def mode_640x480_doubled : fb_var_screeninfo :=
  { mode_640x480 with vmode := 2 }

/-- The visible 640x1000 mode with the doubled-scan flag of `linux` set. -/
def mode_640x1000_doubled : fb_var_screeninfo :=
  { mode_640x480 with yres := 1000, yres_virtual := 1000, vmode := 2 }

/-- The visible 640x1200 mode, progressive scan. -/
def mode_640x1200 : fb_var_screeninfo :=
  { mode_640x480 with yres := 1200, yres_virtual := 1200 }

/-- The 1920x1080 mode with unspecified virtual height, a pan offset beyond
the surface on both axes, and depth 0 (unset). -/
def mode_unset : fb_var_screeninfo :=
  { mode_1920x1080 with bits_per_pixel := 0, xoffset := 7, yoffset := 9 }

/-- The scan-adjusted vertical total as the specification words it, over the
natural numbers: twice the visible height when the doubled-scan flag is set,
else the visible height halved and rounded up when the interlaced flag is
set, else the visible height. -/
def spec_vertical_total (K : KernelHeaders) (var : fb_var_screeninfo) : Nat :=
  if var.vmode &&& K.FB_VMODE_DOUBLE ≠ 0 then 2 * var.yres
  else if var.vmode &&& K.FB_VMODE_INTERLACED ≠ 0 then (var.yres + 1) / 2
  else var.yres

/-- The visible 640 x 2147483648 mode, progressive scan: the visible height
is a `__u32` value with the top bit set. -/
def mode_tall : fb_var_screeninfo :=
  { mode_640x480 with yres := 2147483648, yres_virtual := 2147483648 }

/-- The visible 640 x 1073741824 mode with the doubled-scan flag of `linux`
set. -/
def mode_tall_doubled : fb_var_screeninfo :=
  { mode_640x480 with yres := 1073741824, yres_virtual := 1073741824, vmode := 2 }

/-- The 640x480 mode on a 1280x960 virtual surface with both pan offsets
beyond the surface. -/
def mode_pan_far : fb_var_screeninfo :=
  { mode_640x480 with
      xres_virtual := 1280, yres_virtual := 960, xoffset := 641, yoffset := 5000 }

/-- The channel layouts of the depths above 8, as (depth, red, green, blue,
alpha): the two of depth 16 (green length 5 or 6), that of depth 24 and that
of depth 32. -/
def direct_layout (depth : Nat) (R G B T : fb_bitfield) : Prop :=
  (depth = 16 ∧ B = ⟨0, 5, 0⟩ ∧ G = ⟨5, 5, 0⟩ ∧ R = ⟨10, 5, 0⟩ ∧ T = ⟨15, 0, 0⟩) ∨
  (depth = 16 ∧ B = ⟨0, 5, 0⟩ ∧ G = ⟨5, 6, 0⟩ ∧ R = ⟨11, 5, 0⟩ ∧ T = ⟨16, 0, 0⟩) ∨
  (depth = 24 ∧ R = ⟨0, 8, 0⟩ ∧ G = ⟨8, 8, 0⟩ ∧ B = ⟨16, 8, 0⟩ ∧ T = ⟨24, 0, 0⟩) ∨
  (depth = 32 ∧ R = ⟨0, 8, 0⟩ ∧ G = ⟨8, 8, 0⟩ ∧ B = ⟨16, 8, 0⟩ ∧ T = ⟨24, 8, 0⟩)

/-- The mode at depth 32 with the channel layout that
`bcm2835_fb_set_bitfields` derives for it. -/
def mode_32 : fb_var_screeninfo :=
  (bcm2835_fb_set_bitfields linux { mode_640x480 with bits_per_pixel := 32 }).2

/-- The mapped pointer and the live mappings agree: either the pointer is
`NULL` and no mapping is live, or the pointer is not `NULL` and the one live
mapping is the one at that pointer, over the span that starts at the base
address and has the screen size. -/
def mapping_inv (s : host) : Prop :=
  (s.dev.fb.screen_base = 0 ∧ s.mappings = []) ∨
  (s.dev.fb.screen_base ≠ 0 ∧
    s.mappings = [{ addr := s.dev.fb.screen_base, phys := s.dev.fb.fix.smem_start,
                    size := s.dev.fb.screen_size }])

/-- The number of exchanges with the coprocessor recorded in a state: the
`bcm2835_mbox_io` calls, one per run of `bcm2835_fb_set_par`. -/
def mbox_calls (s : host) : Nat :=
  s.calls.countP (fun c => match c with
    | host_call.mbox_io _ _ _ => true
    | _ => false)

/-- A device record for the mode `var` with nothing negotiated yet: empty
shared record and palettes, no mapping. -/
def fresh_dev (var : fb_var_screeninfo) : bcm2835_fb where
  fb := { var := var, fix := ⟨0, 0, 0, 0⟩, screen_base := 0, screen_size := 0 }
  info := ⟨0, 0, 0, 0, 0, 0, 0, 0, 0, 0, fun _ => 0⟩
  mbox := 1
  dma := 0x1000
  cmap := fun _ => 0

/-- A state with no mapping, as after the probe routine, for the mode `var`. -/
def fresh_host (var : fb_var_screeninfo) : host where
  dev := fresh_dev var
  mappings := []
  calls := []
  log := []

/-- Answers of a successful negotiation: pitch 1280, base `0xDE000000`, size
614400, mapped at host pointer `0xF0000000`. -/
def env_ok : set_par_env where
  mbox_ret := 0
  mbox_val := 0
  pitch := 1280
  base := 0xDE000000
  screen_size := 614400
  ioremap_wc := 0xF0000000

/-- Answers of a transport failure with error code -110. -/
def env_transport_failure : set_par_env :=
  { env_ok with mbox_ret := -110, mbox_val := 4294967295, ioremap_wc := 0 }

/-- Answers of an exchange in which the coprocessor declines the geometry. -/
def env_rejected : set_par_env :=
  { env_ok with mbox_val := 1, ioremap_wc := 0 }

/-- Answers of a successful negotiation after which mapping fails. -/
def env_map_failure : set_par_env :=
  { env_ok with ioremap_wc := 0 }

/-- The mode at depth 16 with the channel layout that
`bcm2835_fb_set_bitfields` derives for it. -/
def mode_16 : fb_var_screeninfo :=
  (bcm2835_fb_set_bitfields linux mode_640x480).2

/-- The mode at depth 8 with the channel layout that
`bcm2835_fb_set_bitfields` derives for it. -/
def mode_8 : fb_var_screeninfo :=
  (bcm2835_fb_set_bitfields linux { mode_640x480 with bits_per_pixel := 8 }).2

/-- A state at depth 16 with a live mapping, after one successful
negotiation. -/
def host_16 : host :=
  (bcm2835_fb_set_par linux_fb env_ok (fresh_host mode_16)).2

/-- A state at depth 8 with a live mapping, after one successful
negotiation. -/
def host_8 : host :=
  (bcm2835_fb_set_par linux_fb env_ok (fresh_host mode_8)).2

/-- A state at depth 32 with a live mapping, after one successful
negotiation. -/
def host_32 : host :=
  (bcm2835_fb_set_par linux_fb env_ok (fresh_host mode_32)).2

/-- Answers of a successful negotiation mapped at host pointer `0xF1000000`. -/
def env_remap : set_par_env :=
  { env_ok with ioremap_wc := 0xF1000000 }

/-- A sequence of steps with a mode change: a negotiation that succeeds at
the mode in place, a switch to the mode of depth 8, a palette store at index
255 that negotiates again, with success, a switch to the mode of depth 32,
and a negotiation that ends in a transport failure. -/
def calls_remap : List fb_call :=
  [fb_call.set_par env_ok,
   fb_call.store_var mode_8,
   fb_call.setcolreg 255 0xF800 0x0400 0x001F 0 env_remap,
   fb_call.store_var mode_32,
   fb_call.set_par env_transport_failure]

/-! ## Auxiliary facts about `bcm2835_fb_set_bitfields` -/

theorem set_bitfields_switch_eq_none (var : fb_var_screeninfo) :
    set_bitfields_switch var = none ↔ ¬ supported_depth var.bits_per_pixel := by
  unfold set_bitfields_switch supported_depth
  split_ifs <;> simp <;> omega

theorem set_bitfields_low (K : KernelHeaders) (var : fb_var_screeninfo)
    (h : var.bits_per_pixel = 1 ∨ var.bits_per_pixel = 2 ∨ var.bits_per_pixel = 4
      ∨ var.bits_per_pixel = 8) :
    bcm2835_fb_set_bitfields K var =
      (0, { var with
              red := ⟨0, var.bits_per_pixel, 0⟩
              green := ⟨0, var.bits_per_pixel, 0⟩
              blue := ⟨0, var.bits_per_pixel, 0⟩
              transp := ⟨0, 0, 0⟩ }) := by
  rcases h with h | h | h | h <;>
    simp [bcm2835_fb_set_bitfields, set_bitfields_switch, h]

theorem set_bitfields_16 (K : KernelHeaders) (var : fb_var_screeninfo)
    (h : var.bits_per_pixel = 16) :
    bcm2835_fb_set_bitfields K var =
      (0, { var with
              blue := ⟨0, 5, 0⟩
              green := ⟨5, if var.green.length = 5 ∨ var.green.length = 6
                           then var.green.length else 6, 0⟩
              red := ⟨5 + (if var.green.length = 5 ∨ var.green.length = 6
                           then var.green.length else 6), 5, 0⟩
              transp := ⟨10 + (if var.green.length = 5 ∨ var.green.length = 6
                           then var.green.length else 6), 0, 0⟩ }) := by
  by_cases h5 : var.green.length = 5
  · simp [bcm2835_fb_set_bitfields, set_bitfields_switch, h, h5]
  · by_cases h6 : var.green.length = 6
    · simp [bcm2835_fb_set_bitfields, set_bitfields_switch, h, h6]
    · simp [bcm2835_fb_set_bitfields, set_bitfields_switch, h, h5, h6]

theorem set_bitfields_24 (K : KernelHeaders) (var : fb_var_screeninfo)
    (h : var.bits_per_pixel = 24) :
    bcm2835_fb_set_bitfields K var =
      (0, { var with
              red := ⟨0, 8, 0⟩
              green := ⟨8, 8, 0⟩
              blue := ⟨16, 8, 0⟩
              transp := ⟨24, 0, 0⟩ }) := by
  simp [bcm2835_fb_set_bitfields, set_bitfields_switch, h]

theorem set_bitfields_32 (K : KernelHeaders) (var : fb_var_screeninfo)
    (h : var.bits_per_pixel = 32) :
    bcm2835_fb_set_bitfields K var =
      (0, { var with
              red := ⟨0, 8, 0⟩
              green := ⟨8, 8, 0⟩
              blue := ⟨16, 8, 0⟩
              transp := ⟨24, 8, 0⟩ }) := by
  simp [bcm2835_fb_set_bitfields, set_bitfields_switch, h]

theorem set_bitfields_default (K : KernelHeaders) (var : fb_var_screeninfo)
    (h : ¬ supported_depth var.bits_per_pixel) :
    bcm2835_fb_set_bitfields K var =
      (-(K.EINVAL : Int), { var with
              red := { var.red with msb_right := 0 }
              green := { var.green with msb_right := 0 }
              blue := { var.blue with msb_right := 0 }
              transp := ⟨0, 0, 0⟩ }) := by
  have hs := (set_bitfields_switch_eq_none { var with
              red := { var.red with msb_right := 0 }
              green := { var.green with msb_right := 0 }
              blue := { var.blue with msb_right := 0 }
              transp := ⟨0, 0, 0⟩ }).2 h
  simp only [bcm2835_fb_set_bitfields, hs]

theorem set_bitfields_supported (K : KernelHeaders) (var : fb_var_screeninfo)
    (hs : supported_depth var.bits_per_pixel) :
    (bcm2835_fb_set_bitfields K var).1 = 0 := by
  rcases hs with h | h | h | h | h | h | h
  · rw [set_bitfields_low K var (Or.inl h)]
  · rw [set_bitfields_low K var (Or.inr (Or.inl h))]
  · rw [set_bitfields_low K var (Or.inr (Or.inr (Or.inl h)))]
  · rw [set_bitfields_low K var (Or.inr (Or.inr (Or.inr h)))]
  · rw [set_bitfields_16 K var h]
  · rw [set_bitfields_24 K var h]
  · rw [set_bitfields_32 K var h]

theorem EINVAL_ne_zero (K : KernelHeaders) : -(K.EINVAL : Int) ≠ 0 := by
  have := K.EINVAL_pos
  omega

theorem check_var_default (K : KernelHeaders) (var : fb_var_screeninfo)
    (h0 : var.bits_per_pixel ≠ 0) (h : ¬ supported_depth var.bits_per_pixel) :
    bcm2835_fb_check_var K var =
      { ret := -(K.EINVAL : Int),
        var := { var with
              red := { var.red with msb_right := 0 }
              green := { var.green with msb_right := 0 }
              blue := { var.blue with msb_right := 0 }
              transp := ⟨0, 0, 0⟩ },
        log := [dev_err.invalid_bits_per_pixel var.bits_per_pixel] } := by
  simp only [bcm2835_fb_check_var, check_var_depth, if_neg h0,
    set_bitfields_default K var h, if_pos (EINVAL_ne_zero K)]

/-! ## The status of layout derivation -/

/-- C1: `bcm2835_fb_set_bitfields` returns 0 for every mode whose depth is one
of 1, 2, 4, 8, 16, 24, 32, and returns `-EINVAL` (a non-zero status) for
every other depth, zero included; `bcm2835_fb_check_var` returns `-EINVAL` and
logs the invalid-depth message for every non-zero depth outside that set. -/
theorem set_bitfields_status (K : KernelHeaders) (var : fb_var_screeninfo) :
    (supported_depth var.bits_per_pixel → (bcm2835_fb_set_bitfields K var).1 = 0) ∧
    (¬ supported_depth var.bits_per_pixel →
      (bcm2835_fb_set_bitfields K var).1 = -(K.EINVAL : Int) ∧
      (bcm2835_fb_set_bitfields K var).1 ≠ 0) ∧
    (var.bits_per_pixel ≠ 0 → ¬ supported_depth var.bits_per_pixel →
      (bcm2835_fb_check_var K var).ret = -(K.EINVAL : Int) ∧
      (bcm2835_fb_check_var K var).ret ≠ 0 ∧
      (bcm2835_fb_check_var K var).log
        = [dev_err.invalid_bits_per_pixel var.bits_per_pixel]) := by
  refine ⟨set_bitfields_supported K var, ?_, ?_⟩
  · intro h
    rw [set_bitfields_default K var h]
    exact ⟨rfl, EINVAL_ne_zero K⟩
  · intro h0 h
    rw [check_var_default K var h0 h]
    exact ⟨rfl, EINVAL_ne_zero K, rfl⟩

/-- Instance of `set_bitfields_status`: depth 16 succeeds, depth 0 fails in
`bcm2835_fb_set_bitfields`, and depth 3 fails in `bcm2835_fb_check_var`. -/
theorem set_bitfields_status_witness :
    (bcm2835_fb_set_bitfields linux mode_640x480).1 = 0 ∧
    (bcm2835_fb_set_bitfields linux { mode_640x480 with bits_per_pixel := 0 }).1 = -22 ∧
    (bcm2835_fb_check_var linux { mode_640x480 with bits_per_pixel := 3 }).ret = -22 :=
  ⟨(set_bitfields_status linux mode_640x480).1 (by decide),
   ((set_bitfields_status linux { mode_640x480 with bits_per_pixel := 0 }).2.1
      (by decide)).1,
   ((set_bitfields_status linux { mode_640x480 with bits_per_pixel := 3 }).2.2
      (by decide) (by decide)).1⟩

/-! ## The channel layouts -/

/-- C2: for a depth `d` among 1, 2, 4, 8 and any prior content of the channel
descriptors, `bcm2835_fb_set_bitfields` succeeds and leaves
red = green = blue = {offset 0, length `d`} and alpha = {offset 0, length 0}. -/
theorem set_bitfields_indexed_layout (K : KernelHeaders) (var : fb_var_screeninfo)
    (d : Nat) (hd : d = 1 ∨ d = 2 ∨ d = 4 ∨ d = 8) (h : var.bits_per_pixel = d) :
    (bcm2835_fb_set_bitfields K var).1 = 0 ∧
    (bcm2835_fb_set_bitfields K var).2.red = ⟨0, d, 0⟩ ∧
    (bcm2835_fb_set_bitfields K var).2.green = ⟨0, d, 0⟩ ∧
    (bcm2835_fb_set_bitfields K var).2.blue = ⟨0, d, 0⟩ ∧
    (bcm2835_fb_set_bitfields K var).2.transp = ⟨0, 0, 0⟩ := by
  subst h
  rw [set_bitfields_low K var hd]
  exact ⟨rfl, rfl, rfl, rfl, rfl⟩

/-- Instance of `set_bitfields_indexed_layout` at depth 8, starting from
channel descriptors that hold other values. -/
theorem set_bitfields_indexed_layout_witness :
    (bcm2835_fb_set_bitfields linux
      { mode_640x480 with bits_per_pixel := 8, red := ⟨11, 5, 1⟩, transp := ⟨24, 8, 1⟩ }).2.red
        = ⟨0, 8, 0⟩ ∧
    (bcm2835_fb_set_bitfields linux
      { mode_640x480 with bits_per_pixel := 8, red := ⟨11, 5, 1⟩, transp := ⟨24, 8, 1⟩ }).2.transp
        = ⟨0, 0, 0⟩ :=
  have h := set_bitfields_indexed_layout linux
    { mode_640x480 with bits_per_pixel := 8, red := ⟨11, 5, 1⟩, transp := ⟨24, 8, 1⟩ } 8
    (by decide) rfl
  ⟨h.2.1, h.2.2.2.2⟩

/-- C3: at depth 16, with prior green length `g0`, `bcm2835_fb_set_bitfields`
succeeds with green length `g = g0` when `g0` is 5 or 6 and `g = 6` otherwise,
and leaves blue = {0, 5}, green = {5, g}, red = {5 + g, 5} and
alpha = {10 + g, length 0}. -/
theorem set_bitfields_16_layout (K : KernelHeaders) (var : fb_var_screeninfo)
    (g0 g : Nat) (h : var.bits_per_pixel = 16) (hg0 : var.green.length = g0)
    (hg : g = if g0 = 5 ∨ g0 = 6 then g0 else 6) :
    (bcm2835_fb_set_bitfields K var).1 = 0 ∧
    (bcm2835_fb_set_bitfields K var).2.blue = ⟨0, 5, 0⟩ ∧
    (bcm2835_fb_set_bitfields K var).2.green = ⟨5, g, 0⟩ ∧
    (bcm2835_fb_set_bitfields K var).2.red = ⟨5 + g, 5, 0⟩ ∧
    (bcm2835_fb_set_bitfields K var).2.transp = ⟨10 + g, 0, 0⟩ := by
  subst hg0 hg
  rw [set_bitfields_16 K var h]
  exact ⟨rfl, rfl, rfl, rfl, rfl⟩

/-- Instance of `set_bitfields_16_layout`: an unset green length resolves to
6 and a prior green length of 5 stays 5. -/
theorem set_bitfields_16_layout_witness :
    (bcm2835_fb_set_bitfields linux mode_640x480).2.green = ⟨5, 6, 0⟩ ∧
    (bcm2835_fb_set_bitfields linux
      { mode_640x480 with green := ⟨0, 5, 0⟩ }).2.green = ⟨5, 5, 0⟩ ∧
    (bcm2835_fb_set_bitfields linux
      { mode_640x480 with green := ⟨0, 5, 0⟩ }).2.red = ⟨10, 5, 0⟩ :=
  have h0 := set_bitfields_16_layout linux mode_640x480 0 6 rfl rfl (by decide)
  have h5 := set_bitfields_16_layout linux { mode_640x480 with green := ⟨0, 5, 0⟩ }
    5 5 rfl rfl (by decide)
  ⟨h0.2.2.1, h5.2.2.1, h5.2.2.2.1⟩

/-- C4: at depth 24 and at depth 32, for any prior content of the channel
descriptors, `bcm2835_fb_set_bitfields` succeeds and leaves red = {0, 8},
green = {8, 8}, blue = {16, 8}, and alpha = {24, length 0} at depth 24,
alpha = {24, length 8} at depth 32. -/
theorem set_bitfields_truecolor_layout (K : KernelHeaders) (var : fb_var_screeninfo)
    (h : var.bits_per_pixel = 24 ∨ var.bits_per_pixel = 32) :
    (bcm2835_fb_set_bitfields K var).1 = 0 ∧
    (bcm2835_fb_set_bitfields K var).2.red = ⟨0, 8, 0⟩ ∧
    (bcm2835_fb_set_bitfields K var).2.green = ⟨8, 8, 0⟩ ∧
    (bcm2835_fb_set_bitfields K var).2.blue = ⟨16, 8, 0⟩ ∧
    (bcm2835_fb_set_bitfields K var).2.transp
      = ⟨24, if var.bits_per_pixel = 24 then 0 else 8, 0⟩ := by
  rcases h with h | h
  · rw [set_bitfields_24 K var h]
    simp [h]
  · rw [set_bitfields_32 K var h]
    simp [h]

/-- Instance of `set_bitfields_truecolor_layout` at depth 24 and at depth 32,
starting from channel descriptors that hold other values. -/
theorem set_bitfields_truecolor_layout_witness :
    (bcm2835_fb_set_bitfields linux
      { mode_640x480 with bits_per_pixel := 24, transp := ⟨3, 7, 1⟩ }).2.transp
        = ⟨24, 0, 0⟩ ∧
    (bcm2835_fb_set_bitfields linux
      { mode_640x480 with bits_per_pixel := 32, blue := ⟨0, 5, 1⟩ }).2.transp
        = ⟨24, 8, 0⟩ ∧
    (bcm2835_fb_set_bitfields linux
      { mode_640x480 with bits_per_pixel := 32, blue := ⟨0, 5, 1⟩ }).2.blue
        = ⟨16, 8, 0⟩ :=
  have h24 := set_bitfields_truecolor_layout linux
    { mode_640x480 with bits_per_pixel := 24, transp := ⟨3, 7, 1⟩ } (Or.inl rfl)
  have h32 := set_bitfields_truecolor_layout linux
    { mode_640x480 with bits_per_pixel := 32, blue := ⟨0, 5, 1⟩ } (Or.inr rfl)
  ⟨h24.2.2.2.2, h32.2.2.2.2, h32.2.2.2.1⟩

/-! ## Auxiliary facts about `bcm2835_fb_check_var` -/

theorem u32_neg_one : u32 (-1) = 4294967295 := by decide

theorem u32_zero : u32 0 = 0 := by decide

theorem check_var_yres_congr (K : KernelHeaders) (v w : fb_var_screeninfo)
    (hy : w.yres = v.yres) (hm : w.vmode = v.vmode) :
    check_var_yres K w = check_var_yres K v := by
  simp only [check_var_yres, hy, hm]

theorem check_var_virtual_eq (v : fb_var_screeninfo) :
    check_var_virtual v =
      ({ v with
          xres_virtual := max v.xres_virtual v.xres
          yres_virtual :=
            max (if v.yres_virtual = 4294967295 then 480 else v.yres_virtual) v.yres },
       if v.yres_virtual = 4294967295 then
         [dev_err.resolution_set_to_maximum (max v.xres_virtual v.xres) 480] else []) := by
  rcases v with ⟨xres, yres, xv, yv, xo, yo, bpp, r, g, b, t, ns, act, ht, wd, af, vm⟩
  by_cases h1 : xv < xres <;>
  by_cases h2 : yv = 4294967295 <;>
  by_cases h3 : yv < yres <;>
  by_cases h4 : 480 < yres <;>
  simp [check_var_virtual, u32_neg_one, h1, h2, h3, h4, Nat.max_def] <;>
  (try split_ifs) <;> omega

theorem check_var_offset_eq (v : fb_var_screeninfo) :
    check_var_offset v =
      { v with
          xoffset :=
            if v.xoffset > u32 ((v.xres_virtual : Int) - v.xres) then
              u32 ((v.xres_virtual : Int) - v.xres - 1)
            else v.xoffset
          yoffset :=
            if v.yoffset > u32 ((v.yres_virtual : Int) - v.yres) then
              u32 ((v.yres_virtual : Int) - v.yres - 1)
            else v.yoffset } := by
  rcases v with ⟨xres, yres, xv, yv, xo, yo, bpp, r, g, b, t, ns, act, ht, wd, af, vm⟩
  by_cases h1 : xo > u32 ((xv : Int) - xres) <;>
  by_cases h2 : yo > u32 ((yv : Int) - yres) <;>
  simp [check_var_offset, u32_zero, h1, h2]

theorem set_bitfields_geometry (K : KernelHeaders) (var : fb_var_screeninfo) :
    (bcm2835_fb_set_bitfields K var).2 =
      { var with
          red := (bcm2835_fb_set_bitfields K var).2.red
          green := (bcm2835_fb_set_bitfields K var).2.green
          blue := (bcm2835_fb_set_bitfields K var).2.blue
          transp := (bcm2835_fb_set_bitfields K var).2.transp } := by
  by_cases hs : supported_depth var.bits_per_pixel
  · rcases hs with h | h | h | h | h | h | h
    · rw [set_bitfields_low K var (Or.inl h)]
    · rw [set_bitfields_low K var (Or.inr (Or.inl h))]
    · rw [set_bitfields_low K var (Or.inr (Or.inr (Or.inl h)))]
    · rw [set_bitfields_low K var (Or.inr (Or.inr (Or.inr h)))]
    · rw [set_bitfields_16 K var h]
    · rw [set_bitfields_24 K var h]
    · rw [set_bitfields_32 K var h]
  · rw [set_bitfields_default K var hs]

theorem check_var_of_bitfields (K : KernelHeaders) (var v : fb_var_screeninfo)
    (h : bcm2835_fb_set_bitfields K (check_var_depth var) = (0, v)) :
    bcm2835_fb_check_var K var =
      { ret := if check_var_yres K v > 1200 then -(K.EINVAL : Int) else 0,
        var := check_var_offset (check_var_virtual v).1,
        log := (check_var_virtual v).2
          ++ (if check_var_yres K v > 1200 then [dev_err.vertical_total] else []) } := by
  have hy : check_var_yres K (check_var_offset (check_var_virtual v).1)
      = check_var_yres K v := by
    rw [check_var_offset_eq, check_var_virtual_eq]
    rfl
  unfold bcm2835_fb_check_var
  simp only [h, hy]
  split_ifs with h0 h1 h1
  · exact absurd rfl h0
  · exact absurd rfl h0
  · rfl
  · rw [List.append_nil]


theorem check_var_depth_supported (var : fb_var_screeninfo)
    (h : var.bits_per_pixel = 0 ∨ supported_depth var.bits_per_pixel) :
    supported_depth (check_var_depth var).bits_per_pixel := by
  unfold check_var_depth
  split_ifs with h0
  · exact Or.inr (Or.inr (Or.inr (Or.inr (Or.inl rfl))))
  · exact h.resolve_left h0

theorem check_var_depth_geometry (var : fb_var_screeninfo) :
    check_var_depth var =
      { var with bits_per_pixel := (check_var_depth var).bits_per_pixel } := by
  unfold check_var_depth
  split_ifs <;> rfl

theorem check_var_supported (K : KernelHeaders) (var : fb_var_screeninfo)
    (h : var.bits_per_pixel = 0 ∨ supported_depth var.bits_per_pixel) :
    bcm2835_fb_check_var K var =
      { ret := if check_var_yres K var > 1200 then -(K.EINVAL : Int) else 0,
        var := check_var_offset
          (check_var_virtual (bcm2835_fb_set_bitfields K (check_var_depth var)).2).1,
        log := (check_var_virtual (bcm2835_fb_set_bitfields K (check_var_depth var)).2).2
          ++ (if check_var_yres K var > 1200 then [dev_err.vertical_total] else []) } := by
  have h1 : bcm2835_fb_set_bitfields K (check_var_depth var)
      = (0, (bcm2835_fb_set_bitfields K (check_var_depth var)).2) :=
    Prod.ext (set_bitfields_supported K _ (check_var_depth_supported var h)) rfl
  have hy : check_var_yres K (bcm2835_fb_set_bitfields K (check_var_depth var)).2
      = check_var_yres K var := by
    apply check_var_yres_congr
    · rw [set_bitfields_geometry, check_var_depth_geometry]
    · rw [set_bitfields_geometry, check_var_depth_geometry]
  rw [check_var_of_bitfields K var _ h1, hy]

theorem set_bitfields_depth_fields (K : KernelHeaders) (var : fb_var_screeninfo) :
    (bcm2835_fb_set_bitfields K (check_var_depth var)).2 =
      { var with
          bits_per_pixel := (check_var_depth var).bits_per_pixel
          red := (bcm2835_fb_set_bitfields K (check_var_depth var)).2.red
          green := (bcm2835_fb_set_bitfields K (check_var_depth var)).2.green
          blue := (bcm2835_fb_set_bitfields K (check_var_depth var)).2.blue
          transp := (bcm2835_fb_set_bitfields K (check_var_depth var)).2.transp } := by
  unfold check_var_depth
  split_ifs with h0 <;> exact set_bitfields_geometry K _

theorem check_var_geometry (K : KernelHeaders) (var : fb_var_screeninfo)
    (h : var.bits_per_pixel = 0 ∨ supported_depth var.bits_per_pixel) :
    (bcm2835_fb_check_var K var).var.xres = var.xres ∧
    (bcm2835_fb_check_var K var).var.yres = var.yres ∧
    (bcm2835_fb_check_var K var).var.vmode = var.vmode ∧
    (bcm2835_fb_check_var K var).var.xres_virtual = max var.xres_virtual var.xres ∧
    (bcm2835_fb_check_var K var).var.yres_virtual
      = max (if var.yres_virtual = 4294967295 then 480 else var.yres_virtual) var.yres ∧
    (bcm2835_fb_check_var K var).var.xoffset
      = (if var.xoffset
            > u32 (((bcm2835_fb_check_var K var).var.xres_virtual : Int) - var.xres) then
          u32 (((bcm2835_fb_check_var K var).var.xres_virtual : Int) - var.xres - 1)
        else var.xoffset) ∧
    (bcm2835_fb_check_var K var).var.yoffset
      = (if var.yoffset
            > u32 (((bcm2835_fb_check_var K var).var.yres_virtual : Int) - var.yres) then
          u32 (((bcm2835_fb_check_var K var).var.yres_virtual : Int) - var.yres - 1)
        else var.yoffset) := by
  rw [check_var_supported K var h, set_bitfields_depth_fields, check_var_virtual_eq,
    check_var_offset_eq]
  exact ⟨rfl, rfl, rfl, rfl, rfl, rfl, rfl⟩

/-! ## Validation of a mode of unsupported depth -/

/-- C5, as stated, fails: at the unsupported depth 3 both functions fail but
clear the alpha descriptor {24, 8} of the mode, and at depth 0, which is
outside the supported set, `bcm2835_fb_check_var` does not fail. -/
theorem invalid_depth_mutates_mode :
    ¬ supported_depth mode_depth_3.bits_per_pixel ∧
    (bcm2835_fb_check_var linux mode_depth_3).ret = -22 ∧
    (bcm2835_fb_check_var linux mode_depth_3).var ≠ mode_depth_3 ∧
    (bcm2835_fb_check_var linux mode_depth_3).var.transp = ⟨0, 0, 0⟩ ∧
    (bcm2835_fb_set_bitfields linux mode_depth_3).2 ≠ mode_depth_3 ∧
    ¬ supported_depth ({ mode_640x480 with bits_per_pixel := 0 }).bits_per_pixel ∧
    (bcm2835_fb_check_var linux { mode_640x480 with bits_per_pixel := 0 }).ret = 0 := by
  decide

/-- C5, amended: for a depth outside 1, 2, 4, 8, 16, 24, 32,
`bcm2835_fb_set_bitfields` fails with `-EINVAL`, and when the depth is also
non-zero `bcm2835_fb_check_var` fails with `-EINVAL` and the invalid-depth
message; both leave every field of the mode as on entry except that the alpha
descriptor is zeroed and the `msb_right` flags of red, green and blue are
cleared. -/
theorem invalid_depth_effect (K : KernelHeaders) (var : fb_var_screeninfo)
    (h : ¬ supported_depth var.bits_per_pixel) :
    -(K.EINVAL : Int) ≠ 0 ∧
    bcm2835_fb_set_bitfields K var =
      (-(K.EINVAL : Int), { var with
              red := { var.red with msb_right := 0 }
              green := { var.green with msb_right := 0 }
              blue := { var.blue with msb_right := 0 }
              transp := ⟨0, 0, 0⟩ }) ∧
    (var.bits_per_pixel ≠ 0 →
      bcm2835_fb_check_var K var =
        { ret := -(K.EINVAL : Int),
          var := { var with
              red := { var.red with msb_right := 0 }
              green := { var.green with msb_right := 0 }
              blue := { var.blue with msb_right := 0 }
              transp := ⟨0, 0, 0⟩ },
          log := [dev_err.invalid_bits_per_pixel var.bits_per_pixel] }) :=
  ⟨EINVAL_ne_zero K, set_bitfields_default K var h,
    fun h0 => check_var_default K var h0 h⟩

/-- Instance of `invalid_depth_effect` at depth 3: the failure leaves the
geometry and the colour channels alone and zeroes the alpha descriptor. -/
theorem invalid_depth_effect_witness :
    bcm2835_fb_check_var linux mode_depth_3 =
      { ret := -22, var := { mode_depth_3 with transp := ⟨0, 0, 0⟩ },
        log := [dev_err.invalid_bits_per_pixel 3] } :=
  (invalid_depth_effect linux mode_depth_3 (by decide)).2.2 (by decide)

/-! ## The repaired geometry -/

/-- C6: for a depth that passes layout derivation (0 or a supported depth),
`bcm2835_fb_check_var` keeps the visible resolution and leaves a virtual width
of at least the visible width and a virtual height of at least the visible
height, whatever status it returns; when the requested virtual height is the
all-ones value, the resulting virtual height is max(480, visible height). -/
theorem check_var_virtual_ge_visible (K : KernelHeaders) (var : fb_var_screeninfo)
    (h : var.bits_per_pixel = 0 ∨ supported_depth var.bits_per_pixel) :
    (bcm2835_fb_check_var K var).var.xres = var.xres ∧
    (bcm2835_fb_check_var K var).var.yres = var.yres ∧
    (bcm2835_fb_check_var K var).var.xres ≤ (bcm2835_fb_check_var K var).var.xres_virtual ∧
    (bcm2835_fb_check_var K var).var.yres ≤ (bcm2835_fb_check_var K var).var.yres_virtual ∧
    (var.yres_virtual = 4294967295 →
      (bcm2835_fb_check_var K var).var.yres_virtual = max 480 var.yres) := by
  obtain ⟨hx, hy, -, hxv, hyv, -, -⟩ := check_var_geometry K var h
  rw [hx, hy, hxv, hyv]
  refine ⟨rfl, rfl, le_max_right _ _, le_max_right _ _, ?_⟩
  intro hs
  rw [if_pos hs]

/-- Instance of `check_var_virtual_ge_visible`: the visible 1920x1080 mode at
depth 32 with unspecified virtual height gets the virtual height 1080. -/
theorem check_var_virtual_ge_visible_witness :
    (bcm2835_fb_check_var linux mode_1920x1080).var.yres_virtual = 1080 ∧
    (bcm2835_fb_check_var linux mode_1920x1080).var.xres
      ≤ (bcm2835_fb_check_var linux mode_1920x1080).var.xres_virtual :=
  have h := check_var_virtual_ge_visible linux mode_1920x1080 (by decide)
  ⟨(h.2.2.2.2 rfl).trans (by decide), h.2.2.1⟩

theorem tdiv_two_eq (z : Int) (hz : 0 ≤ z) : Int.tdiv z 2 = z / 2 :=
  Int.tdiv_eq_ediv hz (by decide)

theorem check_var_yres_eq_spec (K : KernelHeaders) (var : fb_var_screeninfo)
    (hy : var.yres < 1073741824) :
    check_var_yres K var = (spec_vertical_total K var : Int) := by
  unfold check_var_yres spec_vertical_total i32
  simp only []
  split_ifs
  · omega
  · rw [tdiv_two_eq _ (by omega)]
    omega
  · omega

/-- C7 fails on the code: for the 640x480 mode on a 640 wide surface with
`xoffset = 1`, `bcm2835_fb_check_var` returns 0 and leaves
`xoffset = 4294967295`, so `xoffset + xres` exceeds `xres_virtual`: the
subtraction `xres_virtual - xres - 1` wraps when the two extents are equal. -/
theorem check_var_offset_wraps :
    (bcm2835_fb_check_var linux mode_pan_1).ret = 0 ∧
    (bcm2835_fb_check_var linux mode_pan_1).var.xres = 640 ∧
    (bcm2835_fb_check_var linux mode_pan_1).var.xres_virtual = 640 ∧
    (bcm2835_fb_check_var linux mode_pan_1).var.xoffset = 4294967295 ∧
    ¬ ((bcm2835_fb_check_var linux mode_pan_1).var.xoffset
        + (bcm2835_fb_check_var linux mode_pan_1).var.xres
      ≤ (bcm2835_fb_check_var linux mode_pan_1).var.xres_virtual) := by
  decide

/-- C8, as stated, fails: a pan offset at the exact fit, 640 on a 1280 wide
surface with 640 visible, is not repaired to 639 but stays 640. -/
theorem exact_fit_not_decremented :
    supported_depth mode_exact_fit.bits_per_pixel ∧
    mode_exact_fit.xres ≤ mode_exact_fit.xres_virtual ∧
    mode_exact_fit.xoffset = mode_exact_fit.xres_virtual - mode_exact_fit.xres ∧
    (bcm2835_fb_check_var linux mode_exact_fit).var.xoffset = 640 ∧
    (bcm2835_fb_check_var linux mode_exact_fit).var.xoffset
      ≠ mode_exact_fit.xres_virtual - mode_exact_fit.xres - 1 := by
  decide

/-- C8, amended: for a depth that passes layout derivation,
`bcm2835_fb_check_var` leaves a pan offset at the exact fit unchanged: when the
requested offset on an axis equals the virtual extent minus the visible extent
(32-bit values), the offset returned is the requested one.  The virtual
extent is the repaired one, which is the requested one when that is at least
the visible extent and, for the height, not the all-ones value. -/
theorem check_var_exact_fit_kept (K : KernelHeaders) (var : fb_var_screeninfo)
    (h : var.bits_per_pixel = 0 ∨ supported_depth var.bits_per_pixel) :
    (var.xres ≤ var.xres_virtual →
      (bcm2835_fb_check_var K var).var.xres_virtual = var.xres_virtual) ∧
    (var.yres ≤ var.yres_virtual → var.yres_virtual ≠ 4294967295 →
      (bcm2835_fb_check_var K var).var.yres_virtual = var.yres_virtual) ∧
    ((bcm2835_fb_check_var K var).var.xres_virtual < 4294967296 →
      var.xoffset = (bcm2835_fb_check_var K var).var.xres_virtual - var.xres →
      (bcm2835_fb_check_var K var).var.xoffset = var.xoffset) ∧
    ((bcm2835_fb_check_var K var).var.yres_virtual < 4294967296 →
      var.yoffset = (bcm2835_fb_check_var K var).var.yres_virtual - var.yres →
      (bcm2835_fb_check_var K var).var.yoffset = var.yoffset) := by
  obtain ⟨-, -, -, hxv, hyv, hxo, hyo⟩ := check_var_geometry K var h
  refine ⟨?_, ?_, ?_, ?_⟩
  · intro hle
    rw [hxv]
    exact max_eq_left hle
  · intro hle hs
    rw [hyv, if_neg hs]
    exact max_eq_left hle
  · intro hlt hfit
    rw [hxo, if_neg]
    have hge : var.xres ≤ (bcm2835_fb_check_var K var).var.xres_virtual := by
      rw [hxv]
      exact le_max_right _ _
    unfold u32
    omega
  · intro hlt hfit
    rw [hyo, if_neg]
    have hge : var.yres ≤ (bcm2835_fb_check_var K var).var.yres_virtual := by
      rw [hyv]
      exact le_max_right _ _
    unfold u32
    omega

/-- Instance of `check_var_exact_fit_kept`: the offset 640 on the 1280 wide
surface with 640 visible is returned as 640. -/
theorem check_var_exact_fit_kept_witness :
    (bcm2835_fb_check_var linux mode_exact_fit).var.xres_virtual = 1280 ∧
    (bcm2835_fb_check_var linux mode_exact_fit).var.xoffset = 640 :=
  have h := check_var_exact_fit_kept linux mode_exact_fit (by decide)
  ⟨h.1 (by decide), h.2.2.1 (by decide) (by decide)⟩

/-! ## The vertical limit -/

/-- C9: for a depth that passes layout derivation (0 or a supported depth) and
a visible height below `2^30`, `bcm2835_fb_check_var` returns 0 exactly when
the scan-adjusted vertical total of the specification is at most 1200, and
otherwise returns `-EINVAL` (non-zero) with the vertical-total message logged
last. -/
theorem check_var_vertical_limit (K : KernelHeaders) (var : fb_var_screeninfo)
    (h : var.bits_per_pixel = 0 ∨ supported_depth var.bits_per_pixel)
    (hy : var.yres < 1073741824) :
    ((bcm2835_fb_check_var K var).ret = 0 ↔ spec_vertical_total K var ≤ 1200) ∧
    (¬ spec_vertical_total K var ≤ 1200 →
      (bcm2835_fb_check_var K var).ret = -(K.EINVAL : Int) ∧
      (bcm2835_fb_check_var K var).ret ≠ 0 ∧
      (bcm2835_fb_check_var K var).log.getLast? = some dev_err.vertical_total) := by
  rw [check_var_supported K var h, check_var_yres_eq_spec K var hy]
  have hE := EINVAL_ne_zero K
  by_cases ht : spec_vertical_total K var ≤ 1200
  · have hn : ¬ ((spec_vertical_total K var : Int) > 1200) := by omega
    simp only [if_neg hn]
    exact ⟨⟨fun _ => ht, fun _ => trivial⟩, fun hc => absurd ht hc⟩
  · have hp : (spec_vertical_total K var : Int) > 1200 := by omega
    simp only [if_pos hp]
    refine ⟨⟨fun h0 => absurd h0 hE, fun hc => absurd hc ht⟩, fun _ => ⟨trivial, hE, ?_⟩⟩
    simp

/-- Instance of `check_var_vertical_limit`: 640x480 doubled (total 960) is
accepted, 640x1000 doubled (total 2000) is rejected, and a total of exactly
1200 is accepted. -/
theorem check_var_vertical_limit_witness :
    (spec_vertical_total linux mode_640x480_doubled = 960 ∧
      (bcm2835_fb_check_var linux mode_640x480_doubled).ret = 0) ∧
    (spec_vertical_total linux mode_640x1000_doubled = 2000 ∧
      (bcm2835_fb_check_var linux mode_640x1000_doubled).ret = -22 ∧
      (bcm2835_fb_check_var linux mode_640x1000_doubled).log.getLast?
        = some dev_err.vertical_total) ∧
    (spec_vertical_total linux mode_640x1200 = 1200 ∧
      (bcm2835_fb_check_var linux mode_640x1200).ret = 0) :=
  have hA := check_var_vertical_limit linux mode_640x480_doubled (by decide) (by decide)
  have hB := check_var_vertical_limit linux mode_640x1000_doubled (by decide) (by decide)
  have hC := check_var_vertical_limit linux mode_640x1200 (by decide) (by decide)
  ⟨⟨by decide, hA.1.2 (by decide)⟩,
   ⟨by decide, (hB.2 (by decide)).1, (hB.2 (by decide)).2.2⟩,
   ⟨by decide, hC.1.2 (by decide)⟩⟩

/-! ## Idempotence of validation -/

theorem set_bitfields_idem (K : KernelHeaders) (x w : fb_var_screeninfo)
    (hs : supported_depth x.bits_per_pixel)
    (hb : w.bits_per_pixel = x.bits_per_pixel)
    (hr : w.red = (bcm2835_fb_set_bitfields K x).2.red)
    (hg : w.green = (bcm2835_fb_set_bitfields K x).2.green)
    (hbl : w.blue = (bcm2835_fb_set_bitfields K x).2.blue)
    (ht : w.transp = (bcm2835_fb_set_bitfields K x).2.transp) :
    bcm2835_fb_set_bitfields K w = (0, w) := by
  rcases hs with h | h | h | h | h | h | h
  · rw [set_bitfields_low K x (Or.inl h)] at hr hg hbl ht
    rw [set_bitfields_low K w (Or.inl (hb.trans h))]
    rcases w with ⟨xres, yres, xv, yv, xo, yo, bpp, r, g, b, t, ns, act, ht, wd, af, vm⟩
    simp_all
  · rw [set_bitfields_low K x (Or.inr (Or.inl h))] at hr hg hbl ht
    rw [set_bitfields_low K w (Or.inr (Or.inl (hb.trans h)))]
    rcases w with ⟨xres, yres, xv, yv, xo, yo, bpp, r, g, b, t, ns, act, ht, wd, af, vm⟩
    simp_all
  · rw [set_bitfields_low K x (Or.inr (Or.inr (Or.inl h)))] at hr hg hbl ht
    rw [set_bitfields_low K w (Or.inr (Or.inr (Or.inl (hb.trans h))))]
    rcases w with ⟨xres, yres, xv, yv, xo, yo, bpp, r, g, b, t, ns, act, ht, wd, af, vm⟩
    simp_all
  · rw [set_bitfields_low K x (Or.inr (Or.inr (Or.inr h)))] at hr hg hbl ht
    rw [set_bitfields_low K w (Or.inr (Or.inr (Or.inr (hb.trans h))))]
    rcases w with ⟨xres, yres, xv, yv, xo, yo, bpp, r, g, b, t, ns, act, ht, wd, af, vm⟩
    simp_all
  · rw [set_bitfields_16 K x h] at hr hg hbl ht
    rw [set_bitfields_16 K w (hb.trans h)]
    rcases w with ⟨xres, yres, xv, yv, xo, yo, bpp, r, g, b, t, ns, act, ht, wd, af, vm⟩
    simp only at hb hr hg hbl ht
    subst hb hr hg hbl ht
    by_cases h5 : x.green.length = 5
    · simp [h5]
    · by_cases h6 : x.green.length = 6
      · simp [h6]
      · simp [h5, h6]
  · rw [set_bitfields_24 K x h] at hr hg hbl ht
    rw [set_bitfields_24 K w (hb.trans h)]
    rcases w with ⟨xres, yres, xv, yv, xo, yo, bpp, r, g, b, t, ns, act, ht, wd, af, vm⟩
    simp_all
  · rw [set_bitfields_32 K x h] at hr hg hbl ht
    rw [set_bitfields_32 K w (hb.trans h)]
    rcases w with ⟨xres, yres, xv, yv, xo, yo, bpp, r, g, b, t, ns, act, ht, wd, af, vm⟩
    simp_all

theorem clamp_idem (xo a B : Nat) :
    (if (if xo > B then a else xo) > B then a else (if xo > B then a else xo))
      = if xo > B then a else xo := by
  by_cases h : xo > B
  · simp only [if_pos h, ite_self]
  · simp only [if_neg h]

theorem check_var_repair_idem (v : fb_var_screeninfo) :
    check_var_offset (check_var_virtual (check_var_offset (check_var_virtual v).1)).1
      = check_var_offset (check_var_virtual v).1 := by
  rcases v with ⟨xres, yres, xv, yv, xo, yo, bpp, r, g, b, t, ns, act, ht, wd, af, vm⟩
  have hx : max (max xv xres) xres = max xv xres := by omega
  have hyv : ∀ Y : Nat, Y ≠ 4294967295 →
      max (if max Y yres = 4294967295 then 480 else max Y yres) yres = max Y yres := by
    intro Y hY
    split_ifs <;> omega
  have hY : (if yv = 4294967295 then 480 else yv) ≠ 4294967295 := by
    split_ifs <;> omega
  simp only [check_var_virtual_eq, check_var_offset_eq, hx, hyv _ hY, clamp_idem]

theorem set_bitfields_bits_per_pixel (K : KernelHeaders) (var : fb_var_screeninfo) :
    (bcm2835_fb_set_bitfields K var).2.bits_per_pixel = var.bits_per_pixel := by
  rw [set_bitfields_geometry]

theorem check_var_repair_fields (v : fb_var_screeninfo) :
    (check_var_offset (check_var_virtual v).1).bits_per_pixel = v.bits_per_pixel ∧
    (check_var_offset (check_var_virtual v).1).red = v.red ∧
    (check_var_offset (check_var_virtual v).1).green = v.green ∧
    (check_var_offset (check_var_virtual v).1).blue = v.blue ∧
    (check_var_offset (check_var_virtual v).1).transp = v.transp := by
  rw [check_var_virtual_eq, check_var_offset_eq]
  exact ⟨rfl, rfl, rfl, rfl, rfl⟩

/-- C10: validation is idempotent.  When `bcm2835_fb_check_var` accepts a mode
and repairs it, applying it to the repaired mode returns 0 again and returns
the repaired mode with every field unchanged. -/
theorem check_var_idempotent (K : KernelHeaders) (m : fb_var_screeninfo)
    (h : (bcm2835_fb_check_var K m).ret = 0) :
    (bcm2835_fb_check_var K (bcm2835_fb_check_var K m).var).ret = 0 ∧
    (bcm2835_fb_check_var K (bcm2835_fb_check_var K m).var).var
      = (bcm2835_fb_check_var K m).var := by
  have hd : m.bits_per_pixel = 0 ∨ supported_depth m.bits_per_pixel := by
    by_contra hc
    rw [not_or] at hc
    rw [check_var_default K m hc.1 hc.2] at h
    exact EINVAL_ne_zero K h
  have hs := check_var_depth_supported m hd
  have hm := check_var_supported K m hd
  have hi : ∀ w : fb_var_screeninfo,
      w.bits_per_pixel = (check_var_depth m).bits_per_pixel →
      w.red = (bcm2835_fb_set_bitfields K (check_var_depth m)).2.red →
      w.green = (bcm2835_fb_set_bitfields K (check_var_depth m)).2.green →
      w.blue = (bcm2835_fb_set_bitfields K (check_var_depth m)).2.blue →
      w.transp = (bcm2835_fb_set_bitfields K (check_var_depth m)).2.transp →
      bcm2835_fb_set_bitfields K w = (0, w) :=
    fun w => set_bitfields_idem K (check_var_depth m) w hs
  have hvar : (bcm2835_fb_check_var K m).var
      = check_var_offset
          (check_var_virtual (bcm2835_fb_set_bitfields K (check_var_depth m)).2).1 := by
    rw [hm]
  have hret : ¬ check_var_yres K m > 1200 := by
    intro hc
    rw [hm] at h
    simp only [if_pos hc] at h
    exact EINVAL_ne_zero K h
  have hbpp : (bcm2835_fb_check_var K m).var.bits_per_pixel
      = (check_var_depth m).bits_per_pixel := by
    rw [hvar]
    exact (check_var_repair_fields _).1.trans (set_bitfields_bits_per_pixel K _)
  have hyres : (bcm2835_fb_check_var K m).var.yres = m.yres :=
    (check_var_geometry K m hd).2.1
  have hvmode : (bcm2835_fb_check_var K m).var.vmode = m.vmode :=
    (check_var_geometry K m hd).2.2.1
  have hsb : bcm2835_fb_set_bitfields K (bcm2835_fb_check_var K m).var
      = (0, (bcm2835_fb_check_var K m).var) := by
    obtain ⟨-, h1, h2, h3, h4⟩ :=
      check_var_repair_fields (bcm2835_fb_set_bitfields K (check_var_depth m)).2
    rw [← hvar] at h1 h2 h3 h4
    exact hi _ hbpp h1 h2 h3 h4
  have hne : (bcm2835_fb_check_var K m).var.bits_per_pixel ≠ 0 := by
    rw [hbpp]
    intro h0
    rw [h0] at hs
    revert hs
    decide
  have hdm : check_var_depth (bcm2835_fb_check_var K m).var
      = (bcm2835_fb_check_var K m).var := by
    unfold check_var_depth
    rw [if_neg hne]
  have hsb2 : bcm2835_fb_set_bitfields K (check_var_depth (bcm2835_fb_check_var K m).var)
      = (0, (bcm2835_fb_check_var K m).var) := by
    rw [hdm, hsb]
  have h2 := check_var_of_bitfields K (bcm2835_fb_check_var K m).var
    (bcm2835_fb_check_var K m).var hsb2
  rw [check_var_yres_congr K m (bcm2835_fb_check_var K m).var hyres hvmode,
    if_neg hret] at h2
  have hfix : check_var_offset (check_var_virtual (bcm2835_fb_check_var K m).var).1
      = (bcm2835_fb_check_var K m).var := by
    rw [hvar]
    exact check_var_repair_idem _
  constructor
  · rw [h2]
  · rw [h2]
    dsimp only
    exact hfix

/-- Instance of `check_var_idempotent`: the mode with unspecified virtual
height, offsets out of range and depth 0 is accepted, and its repaired form
is accepted again and returned unchanged. -/
theorem check_var_idempotent_witness :
    (bcm2835_fb_check_var linux mode_unset).ret = 0 ∧
    (bcm2835_fb_check_var linux (bcm2835_fb_check_var linux mode_unset).var).ret = 0 ∧
    (bcm2835_fb_check_var linux (bcm2835_fb_check_var linux mode_unset).var).var
      = (bcm2835_fb_check_var linux mode_unset).var :=
  have h0 : (bcm2835_fb_check_var linux mode_unset).ret = 0 := by decide
  ⟨h0, check_var_idempotent linux mode_unset h0⟩

/-! ## Auxiliary facts about `bcm2835_fb_set_par` -/

theorem EIO_ne_zero (K : FbHeaders) : -(K.EIO : Int) ≠ 0 := by
  have := K.EIO_pos
  omega

theorem set_par_of_transport_failure (K : FbHeaders) (env : set_par_env) (s : host)
    (h : env.mbox_ret ≠ 0) :
    bcm2835_fb_set_par K env s = (env.mbox_ret, set_par_request env s) := by
  simp only [bcm2835_fb_set_par, if_pos h]

theorem set_par_of_rejected (K : FbHeaders) (env : set_par_env) (s : host)
    (h : env.mbox_ret = 0) (hv : env.mbox_val ≠ 0) :
    bcm2835_fb_set_par K env s =
      (-(K.EIO : Int), { set_par_request env s with
        log := (set_par_request env s).log ++ [dev_err.query_failed] }) := by
  simp only [bcm2835_fb_set_par, h, ne_eq, not_true_eq_false, if_false, if_pos hv]

theorem set_par_of_accepted (K : FbHeaders) (env : set_par_env) (s : host)
    (h : env.mbox_ret = 0) (hv : env.mbox_val = 0) :
    bcm2835_fb_set_par K env s = set_par_apply K env (set_par_request env s) := by
  simp only [bcm2835_fb_set_par, h, hv, ne_eq, not_true_eq_false, if_false]

/-! ## Negotiation -/

/-- C13: when the negotiation fails, the addressing state is preserved.  If
the transport returns a non-zero error code, `bcm2835_fb_set_par` returns that
code; if the transport succeeds and the reply status word is non-zero, it
returns `-EIO`; in both cases the `fb_info` record (line length, visual, base
address, memory length, screen size, mapped pointer) and the live mappings
are as before the call, and the only call made is the exchange itself. -/
theorem set_par_failure_preserves (K : FbHeaders) (env : set_par_env) (s : host) :
    (env.mbox_ret ≠ 0 → (bcm2835_fb_set_par K env s).1 = env.mbox_ret) ∧
    (env.mbox_ret = 0 → env.mbox_val ≠ 0 →
      (bcm2835_fb_set_par K env s).1 = -(K.EIO : Int) ∧
      (bcm2835_fb_set_par K env s).1 ≠ 0) ∧
    (env.mbox_ret ≠ 0 ∨ env.mbox_val ≠ 0 →
      (bcm2835_fb_set_par K env s).2.dev.fb = s.dev.fb ∧
      (bcm2835_fb_set_par K env s).2.mappings = s.mappings ∧
      (bcm2835_fb_set_par K env s).2.calls
        = s.calls ++ [host_call.mbox_io s.dev.mbox MBOX_CHAN_FB (TO_VC_PHYS s.dev.dma)]) := by
  refine ⟨?_, ?_, ?_⟩
  · intro h
    rw [set_par_of_transport_failure K env s h]
  · intro h hv
    rw [set_par_of_rejected K env s h hv]
    exact ⟨rfl, EIO_ne_zero K⟩
  · intro h
    by_cases h0 : env.mbox_ret = 0
    · rw [set_par_of_rejected K env s h0 (h.resolve_left (not_not.mpr h0))]
      exact ⟨rfl, rfl, rfl⟩
    · rw [set_par_of_transport_failure K env s h0]
      exact ⟨rfl, rfl, rfl⟩

/-- Instance of `set_par_failure_preserves` on a surface with a live mapping:
a transport failure returns its code -110, a declined request returns -5,
and both leave the addressing state and the mapping as they were. -/
theorem set_par_failure_preserves_witness :
    (bcm2835_fb_set_par linux_fb env_transport_failure host_16).1 = -110 ∧
    (bcm2835_fb_set_par linux_fb env_rejected host_16).1 = -5 ∧
    (bcm2835_fb_set_par linux_fb env_transport_failure host_16).2.dev.fb = host_16.dev.fb ∧
    (bcm2835_fb_set_par linux_fb env_rejected host_16).2.dev.fb = host_16.dev.fb ∧
    (bcm2835_fb_set_par linux_fb env_rejected host_16).2.mappings = host_16.mappings :=
  have hA := set_par_failure_preserves linux_fb env_transport_failure host_16
  have hB := set_par_failure_preserves linux_fb env_rejected host_16
  ⟨hA.1 (by decide), (hB.2.1 (by decide) (by decide)).1,
   (hA.2.2 (Or.inl (by decide))).1, (hB.2.2 (Or.inr (by decide))).1,
   (hB.2.2 (Or.inr (by decide))).2.1⟩

theorem FROM_VC_PHYS_lt (a : Nat) : FROM_VC_PHYS a < 1073741824 := by
  unfold FROM_VC_PHYS
  rw [Nat.land_comm]
  exact Nat.and_lt_two_pow a (n := 30) (by norm_num)

theorem set_par_apply_fb (K : FbHeaders) (env : set_par_env) (s : host) :
    (set_par_apply K env s).2.dev.fb =
      { var := s.dev.fb.var,
        fix :=
          { smem_start := FROM_VC_PHYS s.dev.info.base,
            smem_len := (s.dev.info.pitch * s.dev.info.yres_virtual) % 4294967296,
            visual := if s.dev.fb.var.bits_per_pixel ≤ 8 then K.FB_VISUAL_PSEUDOCOLOR
              else K.FB_VISUAL_TRUECOLOR,
            line_length := s.dev.info.pitch },
        screen_base := env.ioremap_wc,
        screen_size := s.dev.info.screen_size } := by
  by_cases h8 : s.dev.fb.var.bits_per_pixel ≤ 8 <;>
  by_cases hb : s.dev.fb.screen_base = 0 <;>
  by_cases hm : env.ioremap_wc = 0 <;>
  simp [set_par_apply, h8, hb, hm]

theorem set_par_apply_calls (K : FbHeaders) (env : set_par_env) (s : host) :
    (set_par_apply K env s).2.calls =
      s.calls
        ++ (if s.dev.fb.screen_base ≠ 0 then [host_call.iounmap s.dev.fb.screen_base]
            else [])
        ++ [host_call.ioremap_wc (FROM_VC_PHYS s.dev.info.base) s.dev.info.screen_size] := by
  by_cases h8 : s.dev.fb.var.bits_per_pixel ≤ 8 <;>
  by_cases hb : s.dev.fb.screen_base = 0 <;>
  by_cases hm : env.ioremap_wc = 0 <;>
  simp [set_par_apply, h8, hb, hm]

theorem set_par_apply_mappings (K : FbHeaders) (env : set_par_env) (s : host) :
    (set_par_apply K env s).2.mappings =
      (if s.dev.fb.screen_base ≠ 0 then
          s.mappings.filter (fun m => m.addr ≠ s.dev.fb.screen_base)
        else s.mappings)
        ++ (if env.ioremap_wc ≠ 0 then
              [{ addr := env.ioremap_wc, phys := FROM_VC_PHYS s.dev.info.base,
                 size := s.dev.info.screen_size }]
            else []) := by
  by_cases h8 : s.dev.fb.var.bits_per_pixel ≤ 8 <;>
  by_cases hb : s.dev.fb.screen_base = 0 <;>
  by_cases hm : env.ioremap_wc = 0 <;>
  simp [set_par_apply, h8, hb, hm]

theorem set_par_apply_ret (K : FbHeaders) (env : set_par_env) (s : host) :
    (set_par_apply K env s).1 = if env.ioremap_wc = 0 then -(K.EIO : Int) else 0 := by
  by_cases h8 : s.dev.fb.var.bits_per_pixel ≤ 8 <;>
  by_cases hb : s.dev.fb.screen_base = 0 <;>
  by_cases hm : env.ioremap_wc = 0 <;>
  simp [set_par_apply, h8, hb, hm]

/-- C14: when the transport succeeds with reply status 0,
`bcm2835_fb_set_par` sets the line length to the pitch of the reply, the base
address to the reply's base with its top two bits cleared (below `2^30`), the
screen size to the reply's size, the memory length to pitch times virtual
height modulo `2^32`, and requests the new mapping, as its last call, over
the span that starts at the base address and has the screen size; a mapping
that is established covers that span.  The visual is pseudo-colour exactly
when the depth of the mode is at most 8 and true-colour otherwise. -/
theorem set_par_success_addressing (K : FbHeaders) (env : set_par_env) (s : host)
    (h : env.mbox_ret = 0) (hv : env.mbox_val = 0) :
    (bcm2835_fb_set_par K env s).2.dev.fb.fix.line_length = env.pitch ∧
    (bcm2835_fb_set_par K env s).2.dev.fb.fix.smem_start = 0x3fffffff &&& env.base ∧
    (bcm2835_fb_set_par K env s).2.dev.fb.fix.smem_start < 2 ^ 30 ∧
    (bcm2835_fb_set_par K env s).2.dev.fb.screen_size = env.screen_size ∧
    (bcm2835_fb_set_par K env s).2.dev.fb.fix.smem_len
      = (env.pitch * s.dev.fb.var.yres_virtual) % 2 ^ 32 ∧
    (bcm2835_fb_set_par K env s).2.calls.getLast?
      = some (host_call.ioremap_wc
          (bcm2835_fb_set_par K env s).2.dev.fb.fix.smem_start
          (bcm2835_fb_set_par K env s).2.dev.fb.screen_size) ∧
    (env.ioremap_wc ≠ 0 →
      { addr := env.ioremap_wc,
        phys := (bcm2835_fb_set_par K env s).2.dev.fb.fix.smem_start,
        size := (bcm2835_fb_set_par K env s).2.dev.fb.screen_size }
        ∈ (bcm2835_fb_set_par K env s).2.mappings) ∧
    (bcm2835_fb_set_par K env s).2.dev.fb.fix.visual
      = (if s.dev.fb.var.bits_per_pixel ≤ 8 then K.FB_VISUAL_PSEUDOCOLOR
         else K.FB_VISUAL_TRUECOLOR) ∧
    ((bcm2835_fb_set_par K env s).2.dev.fb.fix.visual = K.FB_VISUAL_PSEUDOCOLOR
      ↔ s.dev.fb.var.bits_per_pixel ≤ 8) ∧
    ((bcm2835_fb_set_par K env s).2.dev.fb.fix.visual = K.FB_VISUAL_TRUECOLOR
      ↔ ¬ s.dev.fb.var.bits_per_pixel ≤ 8) := by
  rw [set_par_of_accepted K env s h hv, set_par_apply_fb, set_par_apply_calls,
    set_par_apply_mappings]
  refine ⟨rfl, rfl, FROM_VC_PHYS_lt _, rfl, rfl, ?_, ?_, rfl, ?_, ?_⟩
  · simp
  · intro hm
    simp [hm]
  · by_cases h8 : s.dev.fb.var.bits_per_pixel ≤ 8
    · simp [set_par_request, h8]
    · simp [set_par_request, h8, K.visual_ne.symm]
  · by_cases h8 : s.dev.fb.var.bits_per_pixel ≤ 8
    · simp [set_par_request, h8, K.visual_ne]
    · simp [set_par_request, h8]

/-- Instance of `set_par_success_addressing`: the reply with pitch 1280, base
`0xDE000000` and size 614400 at depth 16 gives line length 1280, base address
`0x1E000000`, memory length 1280 * 480 and the true-colour visual. -/
theorem set_par_success_addressing_witness :
    host_16.dev.fb.fix.line_length = 1280 ∧
    host_16.dev.fb.fix.smem_start = 0x1E000000 ∧
    host_16.dev.fb.fix.smem_len = 614400 ∧
    host_16.dev.fb.fix.visual = linux_fb.FB_VISUAL_TRUECOLOR ∧
    host_16.mappings = [{ addr := 0xF0000000, phys := 0x1E000000, size := 614400 }] :=
  have h := set_par_success_addressing linux_fb env_ok (fresh_host mode_16) rfl rfl
  ⟨h.1, h.2.1.trans (by decide), h.2.2.2.2.1.trans (by decide),
   h.2.2.2.2.2.2.2.1.trans (by decide), by decide⟩

/-! ## Auxiliary facts about `bcm2835_fb_setcolreg` -/

theorem set_par_apply_info (K : FbHeaders) (env : set_par_env) (s : host) :
    (set_par_apply K env s).2.dev.info = s.dev.info := by
  by_cases h8 : s.dev.fb.var.bits_per_pixel ≤ 8 <;>
  by_cases hb : s.dev.fb.screen_base = 0 <;>
  by_cases hm : env.ioremap_wc = 0 <;>
  simp [set_par_apply, h8, hb, hm]

theorem set_par_info_cmap (K : FbHeaders) (env : set_par_env) (s : host) :
    (bcm2835_fb_set_par K env s).2.dev.info.cmap = s.dev.info.cmap := by
  by_cases h : env.mbox_ret = 0
  · by_cases hv : env.mbox_val = 0
    · rw [set_par_of_accepted K env s h hv, set_par_apply_info]
      rfl
    · rw [set_par_of_rejected K env s h hv]
      rfl
  · rw [set_par_of_transport_failure K env s h]
    rfl

theorem mbox_calls_append (s : host) (l : List host_call) :
    mbox_calls { s with calls := s.calls ++ l }
      = mbox_calls s + l.countP (fun c => match c with
          | host_call.mbox_io _ _ _ => true
          | _ => false) := by
  simp only [mbox_calls, List.countP_append]

theorem mbox_calls_set_par (K : FbHeaders) (env : set_par_env) (s : host) :
    mbox_calls (bcm2835_fb_set_par K env s).2 = mbox_calls s + 1 := by
  have hreq : mbox_calls (set_par_request env s) = mbox_calls s + 1 := by
    simp [mbox_calls, set_par_request, List.countP_append]
  by_cases h : env.mbox_ret = 0
  · by_cases hv : env.mbox_val = 0
    · rw [set_par_of_accepted K env s h hv, ← hreq]
      unfold mbox_calls
      rw [set_par_apply_calls]
      by_cases hb : (set_par_request env s).dev.fb.screen_base = 0 <;>
        simp [List.countP_append, hb]
    · rw [set_par_of_rejected K env s h hv, ← hreq]
      rfl
  · rw [set_par_of_transport_failure K env s h]
    exact hreq

theorem setcolreg_indexed (K : FbHeaders) (regno red green blue transp : Nat)
    (env : set_par_env) (s : host) (hlive : s.dev.fb.screen_base ≠ 0)
    (h8 : s.dev.fb.var.bits_per_pixel ≤ 8) :
    bcm2835_fb_setcolreg K regno red green blue transp env s =
      (if regno > 255 then 1 else 0,
       if regno = 15 ∨ regno = 255 then
         (bcm2835_fb_set_par K env
           (if regno < 256 then setcolreg_cmap regno red green blue s else s)).2
       else if regno < 256 then setcolreg_cmap regno red green blue s else s) := by
  simp only [bcm2835_fb_setcolreg, if_neg hlive, if_pos h8]

theorem setcolreg_direct (K : FbHeaders) (regno red green blue transp : Nat)
    (env : set_par_env) (s : host) (hlive : s.dev.fb.screen_base ≠ 0)
    (h8 : ¬ s.dev.fb.var.bits_per_pixel ≤ 8) :
    bcm2835_fb_setcolreg K regno red green blue transp env s =
      (if regno > 255 then 1 else 0,
       if regno < 16 then setcolreg_pseudo regno red green blue transp s else s) := by
  simp only [bcm2835_fb_setcolreg, if_neg hlive, if_neg h8]

/-! ## The palette -/

/-- C11: with a live mapping and a depth of at most 8,
`bcm2835_fb_setcolreg` runs `bcm2835_fb_set_par` exactly once, on the state
after the table store, when the index is 15 or 255, and not at all for any
other index; with a depth above 8 it never runs it.  Every run of
`bcm2835_fb_set_par` makes exactly one exchange with the coprocessor, and the
number of exchanges grows by one in the first case and by zero otherwise. -/
theorem setcolreg_set_par_calls (K : FbHeaders) (regno red green blue transp : Nat)
    (env : set_par_env) (s : host) (hlive : s.dev.fb.screen_base ≠ 0) :
    (∀ (env1 : set_par_env) (s1 : host),
      mbox_calls (bcm2835_fb_set_par K env1 s1).2 = mbox_calls s1 + 1) ∧
    (s.dev.fb.var.bits_per_pixel ≤ 8 →
      (bcm2835_fb_setcolreg K regno red green blue transp env s).2
        = (if regno = 15 ∨ regno = 255 then
            (bcm2835_fb_set_par K env
              (if regno < 256 then setcolreg_cmap regno red green blue s else s)).2
          else if regno < 256 then setcolreg_cmap regno red green blue s else s) ∧
      mbox_calls (bcm2835_fb_setcolreg K regno red green blue transp env s).2
        = mbox_calls s + (if regno = 15 ∨ regno = 255 then 1 else 0)) ∧
    (¬ s.dev.fb.var.bits_per_pixel ≤ 8 →
      (bcm2835_fb_setcolreg K regno red green blue transp env s).2.calls = s.calls ∧
      mbox_calls (bcm2835_fb_setcolreg K regno red green blue transp env s).2
        = mbox_calls s) := by
  refine ⟨mbox_calls_set_par K, ?_, ?_⟩
  · intro h8
    rw [setcolreg_indexed K regno red green blue transp env s hlive h8]
    refine ⟨rfl, ?_⟩
    by_cases hr : regno = 15 ∨ regno = 255
    · simp only [if_pos hr]
      rw [mbox_calls_set_par]
      split_ifs <;> rfl
    · simp only [if_neg hr]
      split_ifs <;> rfl
  · intro h8
    rw [setcolreg_direct K regno red green blue transp env s hlive h8]
    split_ifs <;> exact ⟨rfl, rfl⟩

/-- Instance of `setcolreg_set_par_calls` at depth 8 with
(r, g, b) = (0xF800, 0x0400, 0x001F): index 255 adds one exchange, index 100
adds none; at depth 16 index 15 adds none. -/
theorem setcolreg_set_par_calls_witness :
    mbox_calls host_8 = 1 ∧
    mbox_calls (bcm2835_fb_setcolreg linux_fb 255 0xF800 0x0400 0x001F 0 env_ok host_8).2
      = 2 ∧
    mbox_calls (bcm2835_fb_setcolreg linux_fb 100 0xF800 0x0400 0x001F 0 env_ok host_8).2
      = 1 ∧
    mbox_calls (bcm2835_fb_setcolreg linux_fb 15 0xF800 0x0400 0x001F 0 env_ok host_16).2
      = mbox_calls host_16 :=
  have hA := setcolreg_set_par_calls linux_fb 255 0xF800 0x0400 0x001F 0 env_ok host_8
    (by decide)
  have hB := setcolreg_set_par_calls linux_fb 100 0xF800 0x0400 0x001F 0 env_ok host_8
    (by decide)
  have hC := setcolreg_set_par_calls linux_fb 15 0xF800 0x0400 0x001F 0 env_ok host_16
    (by decide)
  ⟨by decide, (hA.2.1 (by decide)).2.trans (by decide),
   (hB.2.1 (by decide)).2.trans (by decide), (hC.2.2 (by decide)).2⟩

/-- C12, as stated, fails: at depth 16 with a live mapping, index 100 is at
least 16 but `bcm2835_fb_setcolreg` returns 0 (false), and the pseudo-palette
is left as it was. -/
theorem setcolreg_index_100_not_rejected :
    host_16.dev.fb.screen_base ≠ 0 ∧
    8 < host_16.dev.fb.var.bits_per_pixel ∧
    16 ≤ 100 ∧
    (bcm2835_fb_setcolreg linux_fb 100 0xF800 0x0400 0x001F 0 env_ok host_16).1 = 0 ∧
    (bcm2835_fb_setcolreg linux_fb 100 0xF800 0x0400 0x001F 0 env_ok host_16).2.dev.cmap 100
      = host_16.dev.cmap 100 := by
  decide

/-- C12, amended: with a live mapping and a depth above 8,
`bcm2835_fb_setcolreg` returns true (1) exactly when the index is above 255
and false (0) otherwise; it stores a pseudo-palette entry exactly when the
index is below 16 and leaves the state untouched for every other index. -/
theorem setcolreg_direct_return (K : FbHeaders) (regno red green blue transp : Nat)
    (env : set_par_env) (s : host) (hlive : s.dev.fb.screen_base ≠ 0)
    (h8 : 8 < s.dev.fb.var.bits_per_pixel) :
    (bcm2835_fb_setcolreg K regno red green blue transp env s).1
      = (if regno > 255 then 1 else 0) ∧
    ((bcm2835_fb_setcolreg K regno red green blue transp env s).1 ≠ 0 ↔ regno > 255) ∧
    (regno < 16 →
      (bcm2835_fb_setcolreg K regno red green blue transp env s).2
        = setcolreg_pseudo regno red green blue transp s) ∧
    (¬ regno < 16 →
      (bcm2835_fb_setcolreg K regno red green blue transp env s).2 = s) := by
  rw [setcolreg_direct K regno red green blue transp env s hlive (by omega)]
  refine ⟨rfl, ?_, ?_, ?_⟩
  · by_cases hr : regno > 255 <;> simp [hr]
  · intro h
    simp only [if_pos h]
  · intro h
    simp only [if_neg h]

/-- Instance of `setcolreg_direct_return` at depth 16: index 100 returns 0
and changes nothing, index 300 returns 1, index 3 returns 0 and stores. -/
theorem setcolreg_direct_return_witness :
    (bcm2835_fb_setcolreg linux_fb 100 0xF800 0x0400 0x001F 0 env_ok host_16).1 = 0 ∧
    (bcm2835_fb_setcolreg linux_fb 100 0xF800 0x0400 0x001F 0 env_ok host_16).2 = host_16 ∧
    (bcm2835_fb_setcolreg linux_fb 300 0xF800 0x0400 0x001F 0 env_ok host_16).1 = 1 ∧
    (bcm2835_fb_setcolreg linux_fb 3 0xF800 0x0400 0x001F 0 env_ok host_16).2
      = setcolreg_pseudo 3 0xF800 0x0400 0x001F 0 host_16 :=
  have hA := setcolreg_direct_return linux_fb 100 0xF800 0x0400 0x001F 0 env_ok host_16
    (by decide) (by decide)
  have hB := setcolreg_direct_return linux_fb 300 0xF800 0x0400 0x001F 0 env_ok host_16
    (by decide) (by decide)
  have hC := setcolreg_direct_return linux_fb 3 0xF800 0x0400 0x001F 0 env_ok host_16
    (by decide) (by decide)
  ⟨hA.1, hA.2.2.2 (by decide), hB.1, hC.2.2.1 (by decide)⟩

theorem cmap_entry_lt (red green blue : Nat) :
    ((((red >>> 11) &&& 0x1f) <<< 11) |||
      (((green >>> 10) &&& 0x3f) <<< 5) |||
      (((blue >>> 11) &&& 0x1f) <<< 0)) < 2 ^ 16 := by
  have hr : (red >>> 11) &&& 0x1f ≤ 0x1f := Nat.and_le_right
  have hg : (green >>> 10) &&& 0x3f ≤ 0x3f := Nat.and_le_right
  have hb : (blue >>> 11) &&& 0x1f ≤ 0x1f := Nat.and_le_right
  refine Nat.or_lt_two_pow (Nat.or_lt_two_pow ?_ ?_) ?_
  · rw [Nat.shiftLeft_eq]
    omega
  · rw [Nat.shiftLeft_eq]
    omega
  · rw [Nat.shiftLeft_eq]
    omega

/-- C18: with a live mapping and a depth of at most 8, for every index below
256 and all intensities, `bcm2835_fb_setcolreg` stores at that index of the
palette table of the shared record the value
`((red >> 11) & 0x1f) << 11 | ((green >> 10) & 0x3f) << 5 | ((blue >> 11) & 0x1f)`,
which fits 16 bits and does not depend on the channel layout of the mode,
leaves every other entry of the table unchanged, and returns false (0). -/
theorem setcolreg_indexed_entry (K : FbHeaders) (regno red green blue transp : Nat)
    (env : set_par_env) (s : host) (hlive : s.dev.fb.screen_base ≠ 0)
    (h8 : s.dev.fb.var.bits_per_pixel ≤ 8) (hi : regno < 256) :
    (bcm2835_fb_setcolreg K regno red green blue transp env s).2.dev.info.cmap regno
      = ((((red >>> 11) &&& 0x1f) <<< 11) |||
          (((green >>> 10) &&& 0x3f) <<< 5) |||
          ((blue >>> 11) &&& 0x1f)) ∧
    ((((red >>> 11) &&& 0x1f) <<< 11) |||
      (((green >>> 10) &&& 0x3f) <<< 5) |||
      ((blue >>> 11) &&& 0x1f)) < 2 ^ 16 ∧
    (∀ j, j ≠ regno →
      (bcm2835_fb_setcolreg K regno red green blue transp env s).2.dev.info.cmap j
        = s.dev.info.cmap j) ∧
    (bcm2835_fb_setcolreg K regno red green blue transp env s).1 = 0 := by
  have hlt := cmap_entry_lt red green blue
  rw [Nat.shiftLeft_zero] at hlt
  have hc : (bcm2835_fb_setcolreg K regno red green blue transp env s).2.dev.info.cmap
      = (setcolreg_cmap regno red green blue s).dev.info.cmap := by
    rw [setcolreg_indexed K regno red green blue transp env s hlive h8]
    simp only [if_pos hi]
    split_ifs
    · exact set_par_info_cmap K env _
    · rfl
  rw [hc, setcolreg_indexed K regno red green blue transp env s hlive h8]
  refine ⟨?_, hlt, ?_, ?_⟩
  · simp only [setcolreg_cmap, if_true, Nat.shiftLeft_zero]
    exact Nat.mod_eq_of_lt hlt
  · intro j hj
    simp only [setcolreg_cmap, if_neg hj]
  · simp only [if_neg (show ¬ regno > 255 by omega)]

/-- Instance of `setcolreg_indexed_entry` at depth 8:
(r, g, b) = (0xF800, 0x0400, 0x001F) stores 0xF820 at index 255 and at index
100, and returns 0. -/
theorem setcolreg_indexed_entry_witness :
    (bcm2835_fb_setcolreg linux_fb 255 0xF800 0x0400 0x001F 0 env_ok host_8).2.dev.info.cmap
      255 = 0xF820 ∧
    (bcm2835_fb_setcolreg linux_fb 100 0xF800 0x0400 0x001F 0 env_ok host_8).2.dev.info.cmap
      100 = 0xF820 ∧
    (bcm2835_fb_setcolreg linux_fb 100 0xF800 0x0400 0x001F 0 env_ok host_8).2.dev.info.cmap
      99 = host_8.dev.info.cmap 99 ∧
    (bcm2835_fb_setcolreg linux_fb 255 0xF800 0x0400 0x001F 0 env_ok host_8).1 = 0 :=
  have hA := setcolreg_indexed_entry linux_fb 255 0xF800 0x0400 0x001F 0 env_ok host_8
    (by decide) (by decide) (by decide)
  have hB := setcolreg_indexed_entry linux_fb 100 0xF800 0x0400 0x001F 0 env_ok host_8
    (by decide) (by decide) (by decide)
  ⟨hA.1.trans (by decide), hB.1.trans (by decide), hB.2.2.1 99 (by decide), hA.2.2.2⟩

/-! ## Validation: vertical total, pan offsets and the depth default -/

/-- C15 fails on the code: `bcm2835_fb_check_var` accepts the mode of visible
height 2147483648, whose scan-adjusted total over the natural numbers is
2147483648, and the doubled mode of visible height 1073741824, whose total is
2147483648; the local `int yres` holds -2147483648 in both cases. -/
theorem check_var_accepts_tall_mode :
    (bcm2835_fb_check_var linux mode_tall).ret = 0 ∧
    spec_vertical_total linux mode_tall = 2147483648 ∧
    ¬ spec_vertical_total linux mode_tall ≤ 1200 ∧
    check_var_yres linux mode_tall = -2147483648 ∧
    (bcm2835_fb_check_var linux mode_tall_doubled).ret = 0 ∧
    spec_vertical_total linux mode_tall_doubled = 2147483648 ∧
    check_var_yres linux mode_tall_doubled = -2147483648 := by
  decide

/-- C16: for a depth that passes layout derivation and 32-bit extents, on
each axis `bcm2835_fb_check_var` sets the pan offset to
(repaired virtual extent - visible extent - 1), computed modulo `2^32`, when
the requested offset plus the visible extent exceeds the repaired virtual
extent, and otherwise leaves the offset as requested. -/
theorem check_var_offset_clamp (K : KernelHeaders) (var : fb_var_screeninfo)
    (h : var.bits_per_pixel = 0 ∨ supported_depth var.bits_per_pixel)
    (hx : var.xres < 4294967296) (hxv : var.xres_virtual < 4294967296)
    (hy : var.yres < 4294967296) (hyv : var.yres_virtual < 4294967296) :
    (bcm2835_fb_check_var K var).var.xoffset
      = (if var.xoffset + var.xres > (bcm2835_fb_check_var K var).var.xres_virtual then
          u32 (((bcm2835_fb_check_var K var).var.xres_virtual : Int) - var.xres - 1)
        else var.xoffset) ∧
    (bcm2835_fb_check_var K var).var.yoffset
      = (if var.yoffset + var.yres > (bcm2835_fb_check_var K var).var.yres_virtual then
          u32 (((bcm2835_fb_check_var K var).var.yres_virtual : Int) - var.yres - 1)
        else var.yoffset) := by
  obtain ⟨-, -, -, hxv', hyv', hxo, hyo⟩ := check_var_geometry K var h
  have hxge : var.xres ≤ (bcm2835_fb_check_var K var).var.xres_virtual := by
    rw [hxv']
    exact le_max_right _ _
  have hxlt : (bcm2835_fb_check_var K var).var.xres_virtual < 4294967296 := by
    rw [hxv']
    exact max_lt hxv hx
  have hyge : var.yres ≤ (bcm2835_fb_check_var K var).var.yres_virtual := by
    rw [hyv']
    exact le_max_right _ _
  have hylt : (bcm2835_fb_check_var K var).var.yres_virtual < 4294967296 := by
    rw [hyv']
    refine max_lt ?_ hy
    split_ifs <;> omega
  have ex : u32 (((bcm2835_fb_check_var K var).var.xres_virtual : Int) - var.xres)
      = (bcm2835_fb_check_var K var).var.xres_virtual - var.xres := by
    unfold u32
    omega
  have ey : u32 (((bcm2835_fb_check_var K var).var.yres_virtual : Int) - var.yres)
      = (bcm2835_fb_check_var K var).var.yres_virtual - var.yres := by
    unfold u32
    omega
  constructor
  · rw [hxo, ex]
    by_cases hc : var.xoffset + var.xres > (bcm2835_fb_check_var K var).var.xres_virtual
    · rw [if_pos hc, if_pos (by omega)]
    · rw [if_neg hc, if_neg (by omega)]
  · rw [hyo, ey]
    by_cases hc : var.yoffset + var.yres > (bcm2835_fb_check_var K var).var.yres_virtual
    · rw [if_pos hc, if_pos (by omega)]
    · rw [if_neg hc, if_neg (by omega)]

/-- Instance of `check_var_offset_clamp`: on the 1280x960 surface with
640x480 visible, the offsets 641 and 5000 become 639 and 479, and the
exact-fit offset 640 stays. -/
theorem check_var_offset_clamp_witness :
    (bcm2835_fb_check_var linux mode_pan_far).var.xoffset = 639 ∧
    (bcm2835_fb_check_var linux mode_pan_far).var.yoffset = 479 ∧
    (bcm2835_fb_check_var linux mode_exact_fit).var.xoffset = 640 :=
  have hA := check_var_offset_clamp linux mode_pan_far (by decide) (by decide) (by decide)
    (by decide) (by decide)
  have hB := check_var_offset_clamp linux mode_exact_fit (by decide) (by decide) (by decide)
    (by decide) (by decide)
  ⟨hA.1.trans (by decide), hA.2.trans (by decide), hB.1.trans (by decide)⟩

/-- C17: a depth of zero is defaulted to 16.  For every mode,
`bcm2835_fb_check_var` on the mode with depth 0 returns the same status, the
same repaired mode and the same messages as on the mode with depth 16; the
repaired mode has depth 16 and the 16-bit channel layout. -/
theorem check_var_depth_zero (K : KernelHeaders) (m : fb_var_screeninfo) :
    bcm2835_fb_check_var K { m with bits_per_pixel := 0 }
      = bcm2835_fb_check_var K { m with bits_per_pixel := 16 } ∧
    (bcm2835_fb_check_var K { m with bits_per_pixel := 0 }).var.bits_per_pixel = 16 ∧
    (bcm2835_fb_check_var K { m with bits_per_pixel := 0 }).var.blue = ⟨0, 5, 0⟩ ∧
    (bcm2835_fb_check_var K { m with bits_per_pixel := 0 }).var.green
      = ⟨5, if m.green.length = 5 ∨ m.green.length = 6 then m.green.length else 6, 0⟩ ∧
    (bcm2835_fb_check_var K { m with bits_per_pixel := 0 }).var.red
      = ⟨5 + (if m.green.length = 5 ∨ m.green.length = 6 then m.green.length else 6),
          5, 0⟩ ∧
    (bcm2835_fb_check_var K { m with bits_per_pixel := 0 }).var.transp
      = ⟨10 + (if m.green.length = 5 ∨ m.green.length = 6 then m.green.length else 6),
          0, 0⟩ := by
  have hd : check_var_depth { m with bits_per_pixel := 0 }
      = check_var_depth { m with bits_per_pixel := 16 } := by
    simp [check_var_depth]
  have h16 : check_var_depth { m with bits_per_pixel := 0 }
      = { m with bits_per_pixel := 16 } := by
    simp [check_var_depth]
  have he : bcm2835_fb_check_var K { m with bits_per_pixel := 0 }
      = bcm2835_fb_check_var K { m with bits_per_pixel := 16 } := by
    unfold bcm2835_fb_check_var
    rw [hd]
  refine ⟨he, ?_⟩
  rw [check_var_supported K _ (Or.inl rfl), h16,
    set_bitfields_16 K { m with bits_per_pixel := 16 } rfl, check_var_virtual_eq,
    check_var_offset_eq]
  exact ⟨rfl, rfl, rfl, rfl, rfl⟩

/-! ## Auxiliary facts about `convert_bitfield` -/

theorem u32_of_lt (x : Nat) (hx : x < 4294967296) : u32 (x : Int) = x := by
  unfold u32
  omega

theorem i32_of_lt (x : Nat) (hx : x < 2147483648) : i32 (x : Int) = x := by
  unfold i32
  omega

theorem two_pow_le (len : Nat) (hl : len ≤ 16) : 2 ^ len ≤ 65536 :=
  calc 2 ^ len ≤ 2 ^ 16 := Nat.pow_le_pow_right (by norm_num) hl
    _ = 65536 := by norm_num

theorem shiftRight_lt (val len : Nat) (hv : val < 65536) (hl : len ≤ 16) :
    val >>> (16 - len) < 2 ^ len := by
  rw [Nat.shiftRight_eq_div_pow, Nat.div_lt_iff_lt_mul (Nat.two_pow_pos _),
    ← Nat.pow_add, Nat.add_sub_cancel' hl]
  exact hv

theorem convert_mask (len : Nat) (hl : len ≤ 16) :
    u32 (i32 ((1 <<< len : Nat) : Int) - 1) = 2 ^ len - 1 := by
  have hp := two_pow_le len hl
  have hp1 : 1 ≤ 2 ^ len := Nat.one_le_two_pow
  rw [Nat.one_shiftLeft]
  clear hl
  unfold u32 i32
  omega

theorem convert_shift (len : Nat) (hl : len ≤ 16) : u32 (16 - (len : Int)) = 16 - len := by
  unfold u32
  omega

theorem int_shiftRight_natCast (val n : Nat) :
    ((val : Int) >>> n) = ((val >>> n : Nat) : Int) := by
  rw [Int.shiftRight_eq_div_pow, Nat.shiftRight_eq_div_pow, Int.natCast_div]

theorem shiftLeft_lt (x len off : Nat) (hx : x < 2 ^ len) (ho : off + len ≤ 32) :
    x <<< off < 4294967296 := by
  rw [Nat.shiftLeft_eq]
  calc x * 2 ^ off < 2 ^ len * 2 ^ off :=
        Nat.mul_lt_mul_of_pos_right hx (Nat.two_pow_pos _)
    _ = 2 ^ (len + off) := (Nat.pow_add _ _ _).symm
    _ ≤ 2 ^ 32 := Nat.pow_le_pow_right (by norm_num) (by omega)
    _ = 4294967296 := by norm_num

theorem convert_bitfield_eq (val off len m : Nat) (hv : val < 65536) (hl : len ≤ 16)
    (ho : off + len ≤ 32) :
    convert_bitfield (i32 val) ⟨off, len, m⟩ = (val >>> (16 - len)) <<< off := by
  have hx := shiftRight_lt val len hv hl
  have hxx : val >>> (16 - len) < 4294967296 :=
    lt_of_lt_of_le hx ((two_pow_le len hl).trans (by norm_num))
  have hand : (val >>> (16 - len)) &&& (2 ^ len - 1) = val >>> (16 - len) := by
    rw [Nat.and_pow_two_sub_one_eq_mod, Nat.mod_eq_of_lt hx]
  simp only [convert_bitfield, i32_of_lt val (by omega), convert_shift len hl,
    convert_mask len hl, int_shiftRight_natCast, u32_of_lt _ hxx, hand,
    u32_of_lt _ (shiftLeft_lt _ len off hx ho)]

theorem lor_shiftLeft_eq_add (a b i : Nat) (hb : b < 2 ^ i) :
    a <<< i ||| b = a * 2 ^ i + b := by
  rw [Nat.shiftLeft_eq, Nat.mul_comm, Nat.mul_add_lt_is_or hb]

theorem shiftRight_16_eq_zero (t : Nat) (ht : t < 65536) : t >>> 16 = 0 := by
  rw [Nat.shiftRight_eq_div_pow]
  exact Nat.div_eq_of_lt ht

theorem pack_888 (T B G R : Nat) (_hT : T < 256) (hB : B < 256) (hG : G < 256)
    (hR : R < 256) :
    T <<< 24 ||| B <<< 16 ||| G <<< 8 ||| R <<< 0
      = T * 16777216 + B * 65536 + G * 256 + R := by
  rw [Nat.shiftLeft_zero, Nat.lor_assoc, Nat.lor_assoc,
    lor_shiftLeft_eq_add G R 8 (by omega),
    lor_shiftLeft_eq_add B _ 16 (by omega),
    lor_shiftLeft_eq_add T _ 24 (by omega)]
  omega

theorem pack_565 (B G R : Nat) (hB : B < 32) (hG : G < 64) (_hR : R < 32) :
    B <<< 0 ||| G <<< 5 ||| R <<< 11 = R * 2048 + G * 32 + B := by
  rw [Nat.shiftLeft_zero, Nat.lor_comm B, Nat.lor_comm _ (R <<< 11),
    lor_shiftLeft_eq_add G B 5 (by omega),
    lor_shiftLeft_eq_add R _ 11 (by omega)]
  omega

theorem pack_555 (B G R : Nat) (hB : B < 32) (hG : G < 32) (_hR : R < 32) :
    B <<< 0 ||| G <<< 5 ||| R <<< 10 = R * 1024 + G * 32 + B := by
  rw [Nat.shiftLeft_zero, Nat.lor_comm B, Nat.lor_comm _ (R <<< 10),
    lor_shiftLeft_eq_add G B 5 (by omega),
    lor_shiftLeft_eq_add R _ 10 (by omega)]
  omega

theorem shiftRight_8_lt (x : Nat) (hx : x < 65536) : x >>> 8 < 256 := by
  rw [Nat.shiftRight_eq_div_pow]
  omega

theorem shiftRight_10_lt (x : Nat) (hx : x < 65536) : x >>> 10 < 64 := by
  rw [Nat.shiftRight_eq_div_pow]
  omega

theorem shiftRight_11_lt (x : Nat) (hx : x < 65536) : x >>> 11 < 32 := by
  rw [Nat.shiftRight_eq_div_pow]
  omega

theorem convert_bitfield_layout (depth : Nat) (R G B T : fb_bitfield) (r g b t : Nat)
    (hr : r < 65536) (hg : g < 65536) (hb : b < 65536) (ht : t < 65536)
    (hL : direct_layout depth R G B T) :
    convert_bitfield (i32 t) T ||| convert_bitfield (i32 b) B |||
        convert_bitfield (i32 g) G ||| convert_bitfield (i32 r) R
      = (t >>> (16 - T.length)) <<< T.offset ||| (b >>> (16 - B.length)) <<< B.offset |||
        (g >>> (16 - G.length)) <<< G.offset ||| (r >>> (16 - R.length)) <<< R.offset := by
  rcases hL with ⟨-, rfl, rfl, rfl, rfl⟩ | ⟨-, rfl, rfl, rfl, rfl⟩ |
    ⟨-, rfl, rfl, rfl, rfl⟩ | ⟨-, rfl, rfl, rfl, rfl⟩ <;>
  rw [convert_bitfield_eq t _ _ _ ht (by norm_num) (by norm_num),
    convert_bitfield_eq b _ _ _ hb (by norm_num) (by norm_num),
    convert_bitfield_eq g _ _ _ hg (by norm_num) (by norm_num),
    convert_bitfield_eq r _ _ _ hr (by norm_num) (by norm_num)]

theorem packed_layout (depth : Nat) (R G B T : fb_bitfield) (r g b t : Nat)
    (hr : r < 65536) (hg : g < 65536) (hb : b < 65536) (ht : t < 65536)
    (hL : direct_layout depth R G B T) (e : Nat)
    (he : e = (t >>> (16 - T.length)) <<< T.offset ||| (b >>> (16 - B.length)) <<< B.offset |||
        (g >>> (16 - G.length)) <<< G.offset ||| (r >>> (16 - R.length)) <<< R.offset) :
    e < 2 ^ depth ∧
    (e >>> R.offset) % 2 ^ R.length = r >>> (16 - R.length) ∧
    (e >>> G.offset) % 2 ^ G.length = g >>> (16 - G.length) ∧
    (e >>> B.offset) % 2 ^ B.length = b >>> (16 - B.length) ∧
    (e >>> T.offset) % 2 ^ T.length = t >>> (16 - T.length) := by
  have h8r := shiftRight_8_lt r hr
  have h8g := shiftRight_8_lt g hg
  have h8b := shiftRight_8_lt b hb
  have h8t := shiftRight_8_lt t ht
  have h11r := shiftRight_11_lt r hr
  have h11g := shiftRight_11_lt g hg
  have h11b := shiftRight_11_lt b hb
  have h10g := shiftRight_10_lt g hg
  have h16t := shiftRight_16_eq_zero t ht
  rcases hL with ⟨rfl, rfl, rfl, rfl, rfl⟩ | ⟨rfl, rfl, rfl, rfl, rfl⟩ |
    ⟨rfl, rfl, rfl, rfl, rfl⟩ | ⟨rfl, rfl, rfl, rfl, rfl⟩
  · simp only [Nat.reduceSub, h16t, Nat.zero_shiftLeft, Nat.zero_or] at he ⊢
    rw [pack_555 _ _ _ h11b h11g h11r] at he
    clear h8r h8g h8b h8t h10g h16t hr hg hb ht
    generalize r >>> 11 = R at *
    generalize g >>> 11 = G at *
    generalize b >>> 11 = B at *
    subst he
    simp only [Nat.shiftRight_eq_div_pow, Nat.reducePow]
    omega
  · simp only [Nat.reduceSub, h16t, Nat.zero_shiftLeft, Nat.zero_or] at he ⊢
    rw [pack_565 _ _ _ h11b h10g h11r] at he
    clear h8r h8g h8b h8t h11g h16t hr hg hb ht
    generalize r >>> 11 = R at *
    generalize g >>> 10 = G at *
    generalize b >>> 11 = B at *
    subst he
    simp only [Nat.shiftRight_eq_div_pow, Nat.reducePow]
    omega
  · simp only [Nat.reduceSub, h16t] at he ⊢
    rw [pack_888 _ _ _ _ (by omega) h8b h8g h8r] at he
    clear h8t h11r h11g h11b h10g h16t hr hg hb ht
    generalize r >>> 8 = R at *
    generalize g >>> 8 = G at *
    generalize b >>> 8 = B at *
    subst he
    simp only [Nat.shiftRight_eq_div_pow, Nat.reducePow]
    omega
  · simp only [Nat.reduceSub] at he ⊢
    rw [pack_888 _ _ _ _ h8t h8b h8g h8r] at he
    clear h11r h11g h11b h10g h16t hr hg hb ht
    generalize r >>> 8 = R at *
    generalize g >>> 8 = G at *
    generalize b >>> 8 = B at *
    generalize t >>> 8 = T at *
    subst he
    simp only [Nat.shiftRight_eq_div_pow, Nat.reducePow]
    omega

theorem set_bitfields_direct_layout (K : KernelHeaders) (v : fb_var_screeninfo)
    (hd : v.bits_per_pixel = 16 ∨ v.bits_per_pixel = 24 ∨ v.bits_per_pixel = 32) :
    direct_layout (bcm2835_fb_set_bitfields K v).2.bits_per_pixel
      (bcm2835_fb_set_bitfields K v).2.red (bcm2835_fb_set_bitfields K v).2.green
      (bcm2835_fb_set_bitfields K v).2.blue (bcm2835_fb_set_bitfields K v).2.transp := by
  rcases hd with h | h | h
  · rw [set_bitfields_16 K v h]
    by_cases h5 : v.green.length = 5
    · exact Or.inl ⟨h, by simp [h5]⟩
    · by_cases h6 : v.green.length = 6
      · exact Or.inr (Or.inl ⟨h, by simp [h6]⟩)
      · exact Or.inr (Or.inl ⟨h, by simp [h5, h6]⟩)
  · rw [set_bitfields_24 K v h]
    exact Or.inr (Or.inr (Or.inl ⟨h, rfl, rfl, rfl, rfl⟩))
  · rw [set_bitfields_32 K v h]
    exact Or.inr (Or.inr (Or.inr ⟨h, rfl, rfl, rfl, rfl⟩))

theorem direct_layout_depth (depth : Nat) (R G B T : fb_bitfield)
    (hL : direct_layout depth R G B T) : ¬ depth ≤ 8 := by
  rcases hL with ⟨h, -⟩ | ⟨h, -⟩ | ⟨h, -⟩ | ⟨h, -⟩ <;> omega

/-- C19: with a live mapping, a mode whose depth is 16, 24 or 32 and whose
channel layout is the one `bcm2835_fb_set_bitfields` derives, an index below
16 and 16-bit intensities, the pseudo-palette entry that
`bcm2835_fb_setcolreg` stores is the bitwise OR over the four channels of
`(value >> (16 - length)) << offset`; the entry is below `2^depth`, and for
each channel the bits [offset, offset + length) of the entry are the top
`length` bits of that channel's intensity.  The function returns false (0). -/
theorem setcolreg_pseudo_entry (K : FbHeaders) (v : fb_var_screeninfo)
    (regno red green blue transp : Nat) (env : set_par_env) (s : host)
    (hlive : s.dev.fb.screen_base ≠ 0)
    (hd : v.bits_per_pixel = 16 ∨ v.bits_per_pixel = 24 ∨ v.bits_per_pixel = 32)
    (hvar : s.dev.fb.var = (bcm2835_fb_set_bitfields K.toKernelHeaders v).2)
    (hi : regno < 16)
    (hr : red < 65536) (hg : green < 65536) (hb : blue < 65536) (ht : transp < 65536) :
    (bcm2835_fb_setcolreg K regno red green blue transp env s).1 = 0 ∧
    (bcm2835_fb_setcolreg K regno red green blue transp env s).2.dev.cmap regno
      = (transp >>> (16 - s.dev.fb.var.transp.length)) <<< s.dev.fb.var.transp.offset |||
        (blue >>> (16 - s.dev.fb.var.blue.length)) <<< s.dev.fb.var.blue.offset |||
        (green >>> (16 - s.dev.fb.var.green.length)) <<< s.dev.fb.var.green.offset |||
        (red >>> (16 - s.dev.fb.var.red.length)) <<< s.dev.fb.var.red.offset ∧
    (bcm2835_fb_setcolreg K regno red green blue transp env s).2.dev.cmap regno
      < 2 ^ s.dev.fb.var.bits_per_pixel ∧
    ((bcm2835_fb_setcolreg K regno red green blue transp env s).2.dev.cmap regno
        >>> s.dev.fb.var.red.offset) % 2 ^ s.dev.fb.var.red.length
      = red >>> (16 - s.dev.fb.var.red.length) ∧
    ((bcm2835_fb_setcolreg K regno red green blue transp env s).2.dev.cmap regno
        >>> s.dev.fb.var.green.offset) % 2 ^ s.dev.fb.var.green.length
      = green >>> (16 - s.dev.fb.var.green.length) ∧
    ((bcm2835_fb_setcolreg K regno red green blue transp env s).2.dev.cmap regno
        >>> s.dev.fb.var.blue.offset) % 2 ^ s.dev.fb.var.blue.length
      = blue >>> (16 - s.dev.fb.var.blue.length) ∧
    ((bcm2835_fb_setcolreg K regno red green blue transp env s).2.dev.cmap regno
        >>> s.dev.fb.var.transp.offset) % 2 ^ s.dev.fb.var.transp.length
      = transp >>> (16 - s.dev.fb.var.transp.length) := by
  have hL : direct_layout s.dev.fb.var.bits_per_pixel s.dev.fb.var.red
      s.dev.fb.var.green s.dev.fb.var.blue s.dev.fb.var.transp := by
    rw [hvar]
    exact set_bitfields_direct_layout K.toKernelHeaders v hd
  have h8 := direct_layout_depth _ _ _ _ _ hL
  have he : (bcm2835_fb_setcolreg K regno red green blue transp env s).2.dev.cmap regno
      = (transp >>> (16 - s.dev.fb.var.transp.length)) <<< s.dev.fb.var.transp.offset |||
        (blue >>> (16 - s.dev.fb.var.blue.length)) <<< s.dev.fb.var.blue.offset |||
        (green >>> (16 - s.dev.fb.var.green.length)) <<< s.dev.fb.var.green.offset |||
        (red >>> (16 - s.dev.fb.var.red.length)) <<< s.dev.fb.var.red.offset := by
    rw [setcolreg_direct K regno red green blue transp env s hlive h8]
    simp only [if_pos hi, setcolreg_pseudo, if_true]
    exact convert_bitfield_layout _ _ _ _ _ red green blue transp hr hg hb ht hL
  have hret : (bcm2835_fb_setcolreg K regno red green blue transp env s).1 = 0 := by
    rw [setcolreg_direct K regno red green blue transp env s hlive h8]
    simp only [if_neg (show ¬ regno > 255 by omega)]
  exact ⟨hret, he, packed_layout _ _ _ _ _ red green blue transp hr hg hb ht hL _ he⟩

/-- Instance of `setcolreg_pseudo_entry`: at depth 16 (5-6-5) the
intensities (0xF800, 0x0400, 0x001F) give the entry 0xF820 at index 3, and
at depth 32 the intensities (0x1234, 0x5678, 0x9ABC, 0xDEF0) give 0xDE9A5612. -/
theorem setcolreg_pseudo_entry_witness :
    (bcm2835_fb_setcolreg linux_fb 3 0xF800 0x0400 0x001F 0 env_ok host_16).2.dev.cmap 3
      = 0xF820 ∧
    (bcm2835_fb_setcolreg linux_fb 3 0x1234 0x5678 0x9ABC 0xDEF0 env_ok host_32).2.dev.cmap 3
      = 0xDE9A5612 ∧
    ((bcm2835_fb_setcolreg linux_fb 3 0x1234 0x5678 0x9ABC 0xDEF0 env_ok host_32).2.dev.cmap 3
        >>> host_32.dev.fb.var.blue.offset) % 2 ^ host_32.dev.fb.var.blue.length
      = 0x9ABC >>> (16 - host_32.dev.fb.var.blue.length) :=
  have hA := setcolreg_pseudo_entry linux_fb mode_640x480 3 0xF800 0x0400 0x001F 0 env_ok
    host_16 (by decide) (by decide) rfl (by decide) (by decide) (by decide) (by decide)
    (by decide)
  have hB := setcolreg_pseudo_entry linux_fb { mode_640x480 with bits_per_pixel := 32 }
    3 0x1234 0x5678 0x9ABC 0xDEF0 env_ok host_32 (by decide) (by decide) rfl (by decide)
    (by decide) (by decide) (by decide) (by decide)
  ⟨hA.2.1.trans (by decide), hB.2.1.trans (by decide), hB.2.2.2.2.2.1⟩

/-! ## The live mappings -/

theorem mapping_inv_congr (s t : host) (hf : t.dev.fb = s.dev.fb)
    (hm : t.mappings = s.mappings) (h : mapping_inv s) : mapping_inv t := by
  unfold mapping_inv at h ⊢
  rw [hf, hm]
  exact h

theorem mapping_inv_apply (K : FbHeaders) (env : set_par_env) (s : host)
    (h : mapping_inv s) : mapping_inv (set_par_apply K env s).2 := by
  unfold mapping_inv
  rw [set_par_apply_fb, set_par_apply_mappings]
  have hfil : (if s.dev.fb.screen_base ≠ 0 then
      s.mappings.filter (fun m => m.addr ≠ s.dev.fb.screen_base) else s.mappings) = [] := by
    rcases h with ⟨h0, hm⟩ | ⟨h0, hm⟩
    · rw [if_neg (not_not.mpr h0), hm]
    · rw [if_pos h0, hm]
      simp
  rw [hfil]
  by_cases he : env.ioremap_wc = 0
  · left
    simp [he]
  · right
    simp [he]

theorem mapping_inv_set_par (K : FbHeaders) (env : set_par_env) (s : host)
    (h : mapping_inv s) : mapping_inv (bcm2835_fb_set_par K env s).2 := by
  have hreq : mapping_inv (set_par_request env s) := mapping_inv_congr s _ rfl rfl h
  by_cases h0 : env.mbox_ret = 0
  · by_cases hv : env.mbox_val = 0
    · rw [set_par_of_accepted K env s h0 hv]
      exact mapping_inv_apply K env _ hreq
    · rw [set_par_of_rejected K env s h0 hv]
      exact mapping_inv_congr s _ rfl rfl h
  · rw [set_par_of_transport_failure K env s h0]
    exact hreq

theorem mapping_inv_setcolreg (K : FbHeaders) (regno red green blue transp : Nat)
    (env : set_par_env) (s : host) (h : mapping_inv s) :
    mapping_inv (bcm2835_fb_setcolreg K regno red green blue transp env s).2 := by
  by_cases hlive : s.dev.fb.screen_base = 0
  · simp only [bcm2835_fb_setcolreg, if_pos hlive]
    exact h
  · by_cases h8 : s.dev.fb.var.bits_per_pixel ≤ 8
    · rw [setcolreg_indexed K regno red green blue transp env s hlive h8]
      have h1 : mapping_inv (if regno < 256 then setcolreg_cmap regno red green blue s
          else s) := by
        split_ifs
        · exact mapping_inv_congr s _ rfl rfl h
        · exact h
      by_cases hr : regno = 15 ∨ regno = 255
      · simp only [if_pos hr]
        exact mapping_inv_set_par K env _ h1
      · simp only [if_neg hr]
        exact h1
    · rw [setcolreg_direct K regno red green blue transp env s hlive h8]
      dsimp only
      split_ifs
      · exact mapping_inv_congr s _ rfl rfl h
      · exact h

theorem mapping_inv_store_var (var : fb_var_screeninfo) (s : host)
    (h : mapping_inv s) : mapping_inv (store_var var s) := h

theorem mapping_inv_run_calls (K : FbHeaders) (cs : List fb_call) (s : host)
    (h : mapping_inv s) : mapping_inv (run_calls K cs s) := by
  induction cs generalizing s with
  | nil => exact h
  | cons c cs ih =>
    apply ih
    cases c with
    | store_var var => exact mapping_inv_store_var var s h
    | set_par env => exact mapping_inv_set_par K env s h
    | setcolreg regno red green blue transp env =>
      exact mapping_inv_setcolreg K regno red green blue transp env s h

/-- C20: starting from a surface with no mapping, after every sequence of
mode stores, `bcm2835_fb_set_par` calls and `bcm2835_fb_setcolreg` calls, at
whatever modes and whatever the kernel services answer, at most one mapping
is live, the mapped pointer is non-null exactly when one mapping is live, and
that mapping is the one at the pointer.  This agreement of pointer and
mappings is an inductive invariant: from any state that satisfies it, a mode
store, a `bcm2835_fb_set_par` call and a `bcm2835_fb_setcolreg` call lead to
a state that satisfies it.  A further negotiation that the coprocessor
accepts releases the existing mapping (`iounmap`) before it requests the new
one (`ioremap_wc`), and when that mapping fails it returns `-EIO` with a null
pointer and no live mapping. -/
theorem one_live_mapping (K : FbHeaders) (cs : List fb_call) (s0 : host)
    (hb : s0.dev.fb.screen_base = 0) (hm : s0.mappings = []) :
    (run_calls K cs s0).mappings.length ≤ 1 ∧
    ((run_calls K cs s0).dev.fb.screen_base ≠ 0
      ↔ (run_calls K cs s0).mappings.length = 1) ∧
    mapping_inv (run_calls K cs s0) ∧
    (∀ env : set_par_env, env.mbox_ret = 0 → env.mbox_val = 0 →
      (bcm2835_fb_set_par K env (run_calls K cs s0)).2.calls
        = (run_calls K cs s0).calls
          ++ [host_call.mbox_io (run_calls K cs s0).dev.mbox MBOX_CHAN_FB
                (TO_VC_PHYS (run_calls K cs s0).dev.dma)]
          ++ (if (run_calls K cs s0).dev.fb.screen_base ≠ 0 then
                [host_call.iounmap (run_calls K cs s0).dev.fb.screen_base]
              else [])
          ++ [host_call.ioremap_wc (FROM_VC_PHYS env.base) env.screen_size] ∧
      (env.ioremap_wc = 0 →
        (bcm2835_fb_set_par K env (run_calls K cs s0)).1 = -(K.EIO : Int) ∧
        (bcm2835_fb_set_par K env (run_calls K cs s0)).1 ≠ 0 ∧
        (bcm2835_fb_set_par K env (run_calls K cs s0)).2.dev.fb.screen_base = 0 ∧
        (bcm2835_fb_set_par K env (run_calls K cs s0)).2.mappings = [])) ∧
    (∀ (s : host) (var : fb_var_screeninfo), mapping_inv s →
      mapping_inv (store_var var s)) ∧
    (∀ (s : host) (env : set_par_env), mapping_inv s →
      mapping_inv (bcm2835_fb_set_par K env s).2) ∧
    (∀ (s : host) (regno red green blue transp : Nat) (env : set_par_env),
      mapping_inv s →
      mapping_inv (bcm2835_fb_setcolreg K regno red green blue transp env s).2) := by
  have hinv : mapping_inv (run_calls K cs s0) :=
    mapping_inv_run_calls K cs s0 (Or.inl ⟨hb, hm⟩)
  generalize run_calls K cs s0 = s at hinv ⊢
  refine ⟨?_, ?_, hinv, ?_,
    fun s var h => mapping_inv_store_var var s h,
    fun s env h => mapping_inv_set_par K env s h,
    fun s regno red green blue transp env h =>
      mapping_inv_setcolreg K regno red green blue transp env s h⟩
  · rcases hinv with ⟨-, h⟩ | ⟨-, h⟩ <;> rw [h] <;> simp
  · rcases hinv with ⟨h0, h⟩ | ⟨h0, h⟩
    · rw [h]
      exact ⟨fun hc => absurd h0 hc, fun hc => absurd hc (by decide)⟩
    · rw [h]
      exact ⟨fun _ => rfl, fun _ => h0⟩
  · intro env h0 hv
    rw [set_par_of_accepted K env s h0 hv]
    constructor
    · rw [set_par_apply_calls]
      rfl
    · intro he
      have hreq : mapping_inv (set_par_request env s) :=
        mapping_inv_congr s _ rfl rfl hinv
      have hfb := set_par_apply_fb K env (set_par_request env s)
      have hres := mapping_inv_apply K env _ hreq
      have hbase : (set_par_apply K env (set_par_request env s)).2.dev.fb.screen_base = 0 := by
        rw [hfb]
        exact he
      refine ⟨?_, ?_, hbase, ?_⟩
      · rw [set_par_apply_ret, if_pos he]
      · rw [set_par_apply_ret, if_pos he]
        exact EIO_ne_zero K
      · rcases hres with ⟨-, h⟩ | ⟨hne, -⟩
        · exact h
        · exact absurd hbase hne

/-- Instance of `one_live_mapping` on the sequence `calls_remap` from a fresh
surface at depth 16: after the switch to depth 8 the second negotiation
unmaps `0xF0000000` before it maps again, and the one live mapping afterwards
is the one at `0xF1000000`, which the failed third negotiation, at depth 32,
leaves in place. -/
theorem one_live_mapping_witness :
    (run_calls linux_fb calls_remap (fresh_host mode_16)).mappings.length ≤ 1 ∧
    (run_calls linux_fb calls_remap (fresh_host mode_16)).mappings
      = [{ addr := 0xF1000000, phys := 0x1E000000, size := 614400 }] ∧
    (run_calls linux_fb calls_remap (fresh_host mode_16)).dev.fb.screen_base = 0xF1000000 ∧
    (run_calls linux_fb calls_remap (fresh_host mode_16)).dev.fb.var.bits_per_pixel = 32 ∧
    (run_calls linux_fb calls_remap (fresh_host mode_16)).dev.fb.fix.visual
      = linux_fb.FB_VISUAL_PSEUDOCOLOR ∧
    (run_calls linux_fb calls_remap (fresh_host mode_16)).calls
      = [host_call.mbox_io 1 1 0x40001000,
         host_call.ioremap_wc 0x1E000000 614400,
         host_call.mbox_io 1 1 0x40001000,
         host_call.iounmap 0xF0000000,
         host_call.ioremap_wc 0x1E000000 614400,
         host_call.mbox_io 1 1 0x40001000] ∧
    (bcm2835_fb_set_par linux_fb env_map_failure
      (run_calls linux_fb calls_remap (fresh_host mode_16))).2.mappings = [] :=
  have h := one_live_mapping linux_fb calls_remap (fresh_host mode_16) rfl rfl
  ⟨h.1, by decide, by decide, by decide, by decide, by decide,
   ((h.2.2.2.1 env_map_failure rfl rfl).2 rfl).2.2.2⟩

end Bcm2835fb
